import Mathlib

/-!
Verification development for the `simple_e4b` sampler-bank codec
(`src/include/e4b_types.hpp`, `src/include/simple_e4b.hpp`).

The C++ sources are shallowly embedded below:
* machine integers become `Nat`/`Int` with explicit wrapping where the
  source casts or byteswaps;
* `std::vector`/`std::array` become `List`;
* the byte stream of an open file becomes `ByteStream` (a byte list plus a
  cursor; `seekg`/`tellg`/`ignore` move the cursor);
* C++ `double`/`float` values become exact fractions (`Frac`).  The six
  unit-conversion helpers that are computed with `std::exp`/`std::log`/
  `std::pow` on IEEE doubles (filter frequency, LFO rate, LFO delay) have
  no exact source-determined value, so they are threaded through the codec
  as an explicit parameter record `FloatOps`; every remaining conversion is
  linear arithmetic plus rounding and is embedded exactly.

Structure and function names follow the source (`m_` fields, `AddPreset`,
`WriteE4B`, ...).  `Write` members, which in the source append bytes to a
`FORMChunk`, are embedded as functions returning the appended byte list.
-/

namespace SimpleE4B

set_option maxRecDepth 100000
set_option maxHeartbeats 2000000

/-! ## Bytes, byte order, and two's complement helpers -/

/-- Truncation to `uint8_t`, as in a C++ integral cast. -/
def u8cast (v : Nat) : Nat := v % 256

/-- Truncation to `uint16_t`. -/
def u16cast (v : Nat) : Nat := v % 65536

/-- Truncation to `uint32_t`. -/
def u32cast (v : Nat) : Nat := v % 4294967296

/-- `byteswap_helpers::byteswap_uint16`: `(val << 8) | (val >> 8)` on a
16-bit unsigned value. -/
def byteswap_uint16 (v : Nat) : Nat := u16cast ((v <<< 8) ||| (v >>> 8))

/-- `byteswap_helpers::byteswap_uint32`:
`(val << 24) | ((val << 8) & 0xFF0000) | ((val >> 8) & 0xFF00) | (val >> 24)`. -/
def byteswap_uint32 (v : Nat) : Nat :=
  u32cast ((v <<< 24) ||| ((v <<< 8) &&& 0x00FF0000) |||
           ((v >>> 8) &&& 0x0000FF00) ||| (v >>> 24))

/-- Bytes written when the (little-endian) host stores a `uint16_t`. -/
def bytesU16LE (v : Nat) : List Nat := [v % 256, (v / 256) % 256]

/-- Bytes written when the host stores a `uint32_t`. -/
def bytesU32LE (v : Nat) : List Nat :=
  [v % 256, (v / 256) % 256, (v / 65536) % 256, (v / 16777216) % 256]

/-- Value obtained when the host loads two bytes into a `uint16_t`. -/
def leU16 (b0 b1 : Nat) : Nat := b0 + 256 * b1

/-- Value obtained when the host loads four bytes into a `uint32_t`. -/
def leU32 (b0 b1 b2 b3 : Nat) : Nat :=
  b0 + 256 * b1 + 65536 * b2 + 16777216 * b3

/-- The memory byte of an `int8_t` value (two's complement). -/
def int8ToByte (i : Int) : Nat := (i % 256).toNat

/-- The `int8_t` value stored as a given byte. -/
def byteToInt8 (b : Nat) : Int := if b < 128 then (b : Int) else (b : Int) - 256

/-- The `int16_t` value stored as two little-endian bytes. -/
def leI16 (b0 b1 : Nat) : Int :=
  let v := leU16 b0 b1
  if v < 32768 then (v : Int) else (v : Int) - 65536

/-- Bytes written when the host stores an `int16_t`. -/
def bytesI16LE (i : Int) : List Nat := bytesU16LE ((i % 65536).toNat)

/-- A byte read into a C++ `bool`. -/
def byteToBool (b : Nat) : Bool := b != 0

/-- The byte written for a C++ `bool`. -/
def boolToByte (b : Bool) : Nat := if b then 1 else 0

/-- The bytes of a string literal of the source. -/
def strBytes (s : String) : List Nat := s.toList.map Char.toNat

/-! ## Byte blobs

A contiguous byte buffer (file contents, chunk payloads) is represented as
a natural number in base 256 together with its length in bytes: byte `k` of
`b` is `b.data / 256^k % 256` (little-endian digit order, matching the
byte order of the host memory the source `memcpy`s from).  This is only a
change of representation of byte lists — `Blob.ofList`/`Blob.sliceList`
convert — chosen so that indexing and concatenation are single arithmetic
operations. -/

structure Blob where
  data : Nat := 0
  size : Nat := 0
deriving DecidableEq, Repr

namespace Blob

/-- The blob of a byte list (masking each entry to a byte, as every C++
write of a byte does). -/
def ofList : List Nat → Blob
  | [] => {}
  | b :: rest =>
    let tail := ofList rest
    ⟨(b % 256) ||| (tail.data <<< 8), tail.size + 1⟩

/-- Concatenation of two buffers. -/
def app (a b : Blob) : Blob := ⟨a.data ||| (b.data <<< (8 * a.size)), a.size + b.size⟩

/-- A zero-filled buffer (reserved/padding regions). -/
def zeros (n : Nat) : Blob := ⟨0, n⟩

/-- Concatenation of a list of buffers. -/
def concatList : List Blob → Blob
  | [] => {}
  | b :: rest => app b (concatList rest)

/-- Byte `k` of a blob (0 past the end, matching the zero-filled reads of
the stream model). -/
def byteAt (bl : Blob) (k : Nat) : Nat := (bl.data >>> (8 * k)) % 256

/-- The byte list of the window `[pos, pos+n)` of a blob. -/
def sliceList (bl : Blob) (pos : Nat) : Nat → List Nat
  | 0 => []
  | n + 1 => bl.byteAt pos :: bl.sliceList (pos + 1) n

end Blob

/-! ## Exact fractions standing in for C++ `double` / `float` values

All conversions kept here are linear arithmetic, `std::round`,
`std::ceil`-based place rounding, truncating casts and clamps, which are
exact on the dyadic/decimal values the codec feeds them; they are embedded
as exact fractions.  The denominator is kept positive by construction. -/

structure Frac where
  num : Int
  den : Nat := 1
deriving DecidableEq, Repr

/-- Build a fraction. -/
def fr (n : Int) (d : Nat) : Frac := ⟨n, d⟩

instance : OfNat Frac n := ⟨⟨(n : Int), 1⟩⟩

namespace Frac

/-- Addition of fractions (no normalisation needed for this development). -/
protected def add (a b : Frac) : Frac := ⟨a.num * b.den + b.num * a.den, a.den * b.den⟩

/-- Subtraction. -/
protected def sub (a b : Frac) : Frac := ⟨a.num * b.den - b.num * a.den, a.den * b.den⟩

/-- Multiplication. -/
protected def mul (a b : Frac) : Frac := ⟨a.num * b.num, a.den * b.den⟩

/-- Negation. -/
protected def neg (a : Frac) : Frac := ⟨-a.num, a.den⟩

/-- Division (the codec never divides by zero; zero divisor gives junk). -/
protected def div (a b : Frac) : Frac :=
  if 0 ≤ b.num then ⟨a.num * b.den, a.den * b.num.toNat⟩
  else ⟨-(a.num * b.den), a.den * (-b.num).toNat⟩

instance : Add Frac := ⟨Frac.add⟩
instance : Sub Frac := ⟨Frac.sub⟩
instance : Mul Frac := ⟨Frac.mul⟩
instance : Neg Frac := ⟨Frac.neg⟩
instance : Div Frac := ⟨Frac.div⟩

/-- `std::abs`. -/
def fabs (a : Frac) : Frac := ⟨(a.num.natAbs : Int), a.den⟩

/-- Boolean strict comparison. -/
def blt (a b : Frac) : Bool := decide (a.num * (b.den : Int) < b.num * (a.den : Int))

/-- Boolean non-strict comparison. -/
def ble (a b : Frac) : Bool := decide (a.num * (b.den : Int) ≤ b.num * (a.den : Int))

/-- `std::clamp(v, lo, hi)`: `v < lo ? lo : hi < v ? hi : v`. -/
def clampF (v lo hi : Frac) : Frac := if blt v lo then lo else if blt hi v then hi else v

/-- Floor of a fraction (denominator positive by construction). -/
def floorF (a : Frac) : Int := Int.fdiv a.num a.den

/-- Ceiling of a fraction. -/
def ceilF (a : Frac) : Int := -(Int.fdiv (-a.num) a.den)

/-- `std::round` / `std::roundf`: round half away from zero. -/
def cppRound (a : Frac) : Int :=
  if ble 0 a then floorF (a + fr 1 2) else -(floorF (-a + fr 1 2))

/-- A truncating float-to-integer cast (rounds toward zero). -/
def cppTrunc (a : Frac) : Int := if ble 0 a then floorF a else ceilF a

end Frac

/-! ## `unit_helpers` (the exactly-embeddable conversions)

`MIN_FINE_TUNE = 1.5625 = 25/16`, `MIN_CHORUS_WIDTH = 0.78125 = 25/32`. -/

/-- `unit_helpers::round_d_places` / `round_f_places`:
`ceil(value * 10^places) / 10^places`. -/
def round_places (q : Frac) (places : Nat) : Frac :=
  let convertedPlaces : Nat := 10 ^ places
  ⟨Frac.ceilF (q * fr (convertedPlaces : Int) 1), convertedPlaces⟩

/-- `unit_helpers::ConvertFineTuneToByte`:
`(int8_t)round((fineTune - 100.0) / 1.5625 + 64.0)` (value part; the
`int8_t` cast is applied at the byte-writing call sites). -/
def ConvertFineTuneToByte (fineTune : Frac) : Int :=
  Frac.cppRound ((fineTune - 100) / fr 25 16 + 64)

/-- `unit_helpers::ConvertByteToFineTune`:
`round_d_places((b - 64.0) * 1.5625 + 100.0, 2)` for an `int8_t` argument. -/
def ConvertByteToFineTune (b : Int) : Frac :=
  round_places ((fr b 1 - 64) * fr 25 16 + 100) 2

/-- `unit_helpers::ConvertPercentToByteF`: `(int8_t)roundf(value * 127/100)`
(value part, cast applied at call sites). -/
def ConvertPercentToByteF (value : Frac) : Int :=
  Frac.cppRound (value * 127 / 100)

/-- `unit_helpers::ConvertByteToPercentF`: `(float)b / 127 * 100`, where the
sign of the argument follows the instantiation (`int8_t` or `uint8_t`). -/
def ConvertByteToPercentF (b : Int) : Frac := fr (b * 100) 127

/-- `unit_helpers::GetChorusWidthPercent`:
`clamp(round_f_places(abs((value - 128.f) * 0.78125f), 2), 0.f, 100.f)`
for a `uint8_t` argument. -/
def GetChorusWidthPercent (value : Nat) : Frac :=
  Frac.clampF (round_places (Frac.fabs ((fr (value : Int) 1 - 128) * fr 25 32)) 2) 0 100

/-- `unit_helpers::ConvertChorusWidthToByte`:
`(int8_t)(value / 0.78125f + 128.f)` returned as `uint8_t`; the truncating
cast composed with the byte conversion is truncation modulo 256 (the wrap
behaviour of the narrowing conversion on the reference platform). -/
def ConvertChorusWidthToByte (value : Frac) : Nat :=
  int8ToByte (Frac.cppTrunc (value / fr 25 32 + 128))

/-- The six transfer functions of `unit_helpers` computed with
`std::exp` / `std::log` / `std::pow` on IEEE doubles
(`ConvertByteToFilterFrequency`, `ConvertFilterFrequencyToByte`,
`GetLFORateFromByte`, `GetByteFromLFORate`, `GetLFODelayFromByte`,
`GetByteFromLFODelay`).  Their exact values are determined by the
platform's floating-point library, not by the source text alone, so the
codec is embedded parametrically in them; byte-returning members are used
modulo 256 (the `uint8_t` return type). -/
structure FloatOps where
  byteToFilterFrequency : Nat → Nat
  filterFrequencyToByte : Nat → Nat
  lfoRateFromByte : Nat → Frac
  byteFromLFORate : Frac → Nat
  lfoDelayFromByte : Nat → Frac
  byteFromLFODelay : Frac → Nat

/-- A fixed instantiation of `FloatOps`, used to state closed evaluation
theorems whose conclusions do not depend on the transfer functions. -/
def tf0 : FloatOps :=
  ⟨fun _ => 0, fun _ => 0, fun _ => ⟨0, 1⟩, fun _ => 0, fun _ => ⟨0, 1⟩, fun _ => 0⟩

/-! ## Byte streams (`std::ifstream` on an in-memory file) -/

structure ByteStream where
  data : Blob
  pos : Nat := 0
deriving DecidableEq, Repr

/-- Pad or truncate a byte list to an exact length (zero-filled), for the
fixed-width array fields the source `memcpy`s from. -/
def takePad (l : List Nat) (n : Nat) : List Nat :=
  l.take n ++ List.replicate (n - (l.take n).length) 0

namespace ByteStream

/-- `stream.read(dst, n)` (reads past the end of the file leave the
destination bytes zeroed in this model). -/
def rdBytes (s : ByteStream) (n : Nat) : List Nat × ByteStream :=
  (s.data.sliceList s.pos n, ⟨s.data, s.pos + n⟩)

/-- Read one byte. -/
def rdU8 (s : ByteStream) : Nat × ByteStream :=
  (s.data.byteAt s.pos, ⟨s.data, s.pos + 1⟩)

/-- Read a `uint16_t` as the little-endian host does. -/
def rdU16 (s : ByteStream) : Nat × ByteStream :=
  (leU16 (s.data.byteAt s.pos) (s.data.byteAt (s.pos + 1)), ⟨s.data, s.pos + 2⟩)

/-- Read a `uint32_t` as the little-endian host does. -/
def rdU32 (s : ByteStream) : Nat × ByteStream :=
  (leU32 (s.data.byteAt s.pos) (s.data.byteAt (s.pos + 1))
     (s.data.byteAt (s.pos + 2)) (s.data.byteAt (s.pos + 3)), ⟨s.data, s.pos + 4⟩)

/-- Read an `int8_t`. -/
def rdI8 (s : ByteStream) : Int × ByteStream :=
  (byteToInt8 (s.data.byteAt s.pos), ⟨s.data, s.pos + 1⟩)

/-- `stream.ignore(n)`. -/
def skip (s : ByteStream) (n : Nat) : ByteStream := ⟨s.data, s.pos + n⟩

/-- `stream.seekg(p)`. -/
def seek (s : ByteStream) (p : Nat) : ByteStream := ⟨s.data, p⟩

end ByteStream

/-! ## `FORMChunk`

The chunk tree is mutually inductive (a chunk and its list of subchunks) so
that the recursive size and serialisation functions are structural and
kernel-computable. -/

mutual
inductive FORMChunk : Type where
  | mk (m_chunkName : List Nat) (m_readChunkSize : Nat)
       (m_writtenData : Blob) (m_subChunks : FORMChunkList)
inductive FORMChunkList : Type where
  | nil
  | cons (c : FORMChunk) (cs : FORMChunkList)
end

/-- `FORMChunk::GetName`. -/
def FORMChunk.GetName : FORMChunk → List Nat
  | .mk n _ _ _ => n

/-- `FORMChunk::GetReadSize`. -/
def FORMChunk.GetReadSize : FORMChunk → Nat
  | .mk _ r _ _ => r

mutual
/-- `FORMChunk::GetFullSize(includeHeader)`: payload size, plus
`name.length + 4` when the header is included, plus the subchunks. -/
def FORMChunk.GetFullSize (includeHeader : Bool) : FORMChunk → Nat
  | .mk nm _ w subs =>
    w.size + (if includeHeader then nm.length + 4 else 0) +
      FORMChunkList.fullSizes includeHeader subs
/-- Sum of `GetFullSize` over a subchunk list. -/
def FORMChunkList.fullSizes (includeHeader : Bool) : FORMChunkList → Nat
  | .nil => 0
  | .cons c cs =>
    FORMChunk.GetFullSize includeHeader c + FORMChunkList.fullSizes includeHeader cs
end

mutual
/-- `FORMChunk::Write`: name, big-endian size (the explicit
`m_readChunkSize` override when positive, else `GetFullSize(true) - 8`),
payload, then each subchunk; a chunk whose name is not 4 bytes writes
nothing. -/
def FORMChunk.serializeC : FORMChunk → Blob
  | .mk nm rs w subs =>
    if nm.length ≠ 4 then {}
    else
      Blob.app (Blob.ofList nm)
        (Blob.app
          (Blob.ofList (bytesU32LE (byteswap_uint32
            (if rs > 0 then rs else FORMChunk.GetFullSize true (.mk nm rs w subs) - 8))))
          (Blob.app w (FORMChunkList.serializeL subs)))
/-- Serialisation of a subchunk list. -/
def FORMChunkList.serializeL : FORMChunkList → Blob
  | .nil => {}
  | .cons c cs => Blob.app (FORMChunk.serializeC c) (FORMChunkList.serializeL cs)
end

/-- Append a subchunk at the end of a subchunk list (`emplace_back`). -/
def FORMChunkList.push : FORMChunkList → FORMChunk → FORMChunkList
  | .nil, c => .cons c .nil
  | .cons x xs, c => .cons x (xs.push c)

/-- `FORMChunk::Read`: 4-byte name, then a byteswapped `uint32_t` size. -/
def FORMChunk.ReadHdr (s : ByteStream) : (List Nat × Nat) × ByteStream :=
  let (nm, s) := s.rdBytes 4
  let (sz, s) := s.rdU32
  ((nm, byteswap_uint32 sz), s)

/-! ## Common constants and name normalisation -/

/-- `std::clamp` on unsigned values. -/
def clampN (v lo hi : Nat) : Nat := if v < lo then lo else if hi < v then hi else v

/-- `std::clamp` on signed values. -/
def clampI (v lo hi : Int) : Int := if v < lo then lo else if hi < v then hi else v

/-- Read `n` records in sequence with a record reader. -/
def readN {α : Type} (rd : ByteStream → α × ByteStream) :
    Nat → ByteStream → List α × ByteStream
  | 0, s => ([], s)
  | n + 1, s =>
    let (x, s) := rd s
    let (xs, s) := readN rd n s
    (x :: xs, s)

/-- `ApplyEOSNamingStandards`: a nonempty name whose length is not 16 is
resized to 16 (truncating or null-padding) and every null byte is replaced
by a space. -/
def ApplyEOSNamingStandards (str : List Nat) : List Nat :=
  if str ≠ [] ∧ str.length ≠ 16 then
    (str.take 16 ++ List.replicate (16 - str.length) 0).map
      (fun c => if c = 0 then 32 else c)
  else str

/-! ## `MidiNote`

The source stores a `string_view` into the 12-entry `MIDI_NOTATION` table;
the embedding stores the table index directly (`ToByte` recovers exactly
this index via `std::distance`/`std::find`). -/

structure MidiNote where
  m_noteIdx : Nat
  m_octave : Int
deriving DecidableEq, Repr

/-- `MidiNote(byte)`: table index `byte % 12`, octave `byte / 12 - 2`. -/
def MidiNote.ofByte (byte : Nat) : MidiNote := ⟨byte % 12, (byte / 12 : Int) - 2⟩

/-- `MidiNote(notation, octave)` with the octave clamped to `[-2, 8]`. -/
def MidiNote.make (noteIdx : Nat) (octave : Int) : MidiNote :=
  ⟨noteIdx, clampI octave (-2) 8⟩

/-- `MidiNote::ToByte`: `clamp(12 + pos + (octave + 1) * 12, 0, 127)`. -/
def MidiNote.ToByte (n : MidiNote) : Nat :=
  (clampI (12 + (n.m_noteIdx : Int) + (n.m_octave + 1) * 12) 0 127).toNat

/-! ## `E4SampleZoneNoteData` and `E4Envelope` -/

structure E4SampleZoneNoteData where
  m_low : Nat := 0
  m_lowFade : Nat := 0
  m_highFade : Nat := 0
  m_high : Nat := 127
deriving DecidableEq, Repr

/-- The four bytes of an `E4SampleZoneNoteData` as laid out in memory. -/
def E4SampleZoneNoteData.writeBytes (d : E4SampleZoneNoteData) : List Nat :=
  [u8cast d.m_low, u8cast d.m_lowFade, u8cast d.m_highFade, u8cast d.m_high]

/-- Reading four bytes back into an `E4SampleZoneNoteData`. -/
def E4SampleZoneNoteData.read (s : ByteStream) : E4SampleZoneNoteData × ByteStream :=
  let (bs, s) := s.rdBytes 4
  match bs with
  | [a, b, c, d] => (⟨a, b, c, d⟩, s)
  | _ => ({}, s)

structure E4Envelope where
  m_attack1Sec : Nat := 0
  m_attack1Level : Int := 0
  m_attack2Sec : Nat := 0
  m_attack2Level : Int := 127
  m_decay1Sec : Nat := 0
  m_decay1Level : Int := 127
  m_decay2Sec : Nat := 0
  m_decay2Level : Int := 127
  m_release1Sec : Nat := 0
  m_release1Level : Int := 0
  m_release2Sec : Nat := 0
  m_release2Level : Int := 0
deriving DecidableEq, Repr

/-- The 12 bytes of an `E4Envelope` in declaration order. -/
def E4Envelope.writeBytes (e : E4Envelope) : List Nat :=
  [u8cast e.m_attack1Sec, int8ToByte e.m_attack1Level,
   u8cast e.m_attack2Sec, int8ToByte e.m_attack2Level,
   u8cast e.m_decay1Sec, int8ToByte e.m_decay1Level,
   u8cast e.m_decay2Sec, int8ToByte e.m_decay2Level,
   u8cast e.m_release1Sec, int8ToByte e.m_release1Level,
   u8cast e.m_release2Sec, int8ToByte e.m_release2Level]

/-- Reading 12 bytes back into an `E4Envelope`. -/
def E4Envelope.read (s : ByteStream) : E4Envelope × ByteStream :=
  let (bs, s) := s.rdBytes 12
  match bs with
  | [a1s, a1l, a2s, a2l, d1s, d1l, d2s, d2l, r1s, r1l, r2s, r2l] =>
    (⟨a1s, byteToInt8 a1l, a2s, byteToInt8 a2l, d1s, byteToInt8 d1l,
      d2s, byteToInt8 d2l, r1s, byteToInt8 r1l, r2s, byteToInt8 r2l⟩, s)
  | _ => ({}, s)

/-! ## `E4LFO` -/

structure E4LFO where
  m_rate : Frac := fr 8 100
  m_shape : Nat := 0
  m_delay : Frac := 0
  m_variationPercent : Frac := 0
  m_keySync : Bool := false
deriving DecidableEq, Repr

/-- `E4LFO::Write`: rate byte, shape, delay byte, variation byte, flipped
key-sync flag, two reserved bytes. -/
def E4LFO.writeBytes (tf : FloatOps) (l : E4LFO) : List Nat :=
  [u8cast (tf.byteFromLFORate (Frac.clampF l.m_rate (fr 8 100) (fr 1801 100))),
   u8cast l.m_shape,
   u8cast (tf.byteFromLFODelay (Frac.clampF l.m_delay 0 (fr 21694 1000))),
   int8ToByte (ConvertPercentToByteF (Frac.clampF l.m_variationPercent 0 100)),
   boolToByte (!l.m_keySync), 0, 0]

/-- `E4LFO::Read`. -/
def E4LFO.read (tf : FloatOps) (s : ByteStream) : E4LFO × ByteStream :=
  let (rate, s) := s.rdU8
  let (shape, s) := s.rdU8
  let (delay, s) := s.rdU8
  let (variation, s) := s.rdU8
  let (keySync, s) := s.rdU8
  let s := s.skip 2
  ({ m_rate := tf.lfoRateFromByte rate, m_shape := shape,
     m_delay := tf.lfoDelayFromByte delay,
     m_variationPercent := ConvertByteToPercentF (variation : Int),
     m_keySync := !(byteToBool keySync) }, s)

/-! ## `E4Cord`

Sources and destinations are closed `uint8_t` enums; the embedding keeps
the numeric codes. -/

structure E4Cord where
  m_src : Nat := 0
  m_dst : Nat := 0
  m_percent : Frac := 0
deriving DecidableEq, Repr

/-- `E4Cord::Write`: source, destination, amount byte, reserved byte. -/
def E4Cord.writeBytes (c : E4Cord) : List Nat :=
  [u8cast c.m_src, u8cast c.m_dst,
   int8ToByte (ConvertPercentToByteF (Frac.clampF c.m_percent (fr (-100) 1) 100)), 0]

/-- `E4Cord::Read` (the amount byte is an `int8_t`). -/
def E4Cord.read (s : ByteStream) : E4Cord × ByteStream :=
  let (src, s) := s.rdU8
  let (dst, s) := s.rdU8
  let (amt, s) := s.rdI8
  let s := s.skip 1
  ({ m_src := src, m_dst := dst, m_percent := ConvertByteToPercentF amt }, s)

/-! ## `E4SampleZone` -/

structure E4SampleZone where
  m_keyData : E4SampleZoneNoteData := {}
  m_velData : E4SampleZoneNoteData := {}
  m_sampleIndex : Nat := 0
  m_fineTune : Frac := 0
  m_originalKey : MidiNote := MidiNote.make 0 3
  m_volume : Int := 0
  m_pan : Int := 0
deriving DecidableEq, Repr

/-- `E4SampleZone(sampleIndex, originalKey)`. -/
def E4SampleZone.make (sampleIndex : Nat) (originalKey : MidiNote) : E4SampleZone :=
  { m_sampleIndex := sampleIndex, m_originalKey := originalKey }

/-- `E4SampleZone::Write` (22 bytes). -/
def E4SampleZone.writeBytes (z : E4SampleZone) : List Nat :=
  z.m_keyData.writeBytes ++ z.m_velData.writeBytes ++
  bytesU16LE (byteswap_uint16 z.m_sampleIndex) ++ [0] ++
  [int8ToByte (ConvertFineTuneToByte z.m_fineTune)] ++
  [u8cast z.m_originalKey.ToByte] ++
  [int8ToByte z.m_volume, int8ToByte z.m_pan] ++
  List.replicate 7 0

/-- `E4SampleZone::Read` (22 bytes). -/
def E4SampleZone.read (s : ByteStream) : E4SampleZone × ByteStream :=
  let (keyData, s) := E4SampleZoneNoteData.read s
  let (velData, s) := E4SampleZoneNoteData.read s
  let (idxRaw, s) := s.rdU16
  let sampleIndex := byteswap_uint16 idxRaw
  let s := s.skip 1
  let (fineTune, s) := s.rdI8
  let (originalKey, s) := s.rdU8
  let (volume, s) := s.rdI8
  let (pan, s) := s.rdI8
  let s := s.skip 7
  ({ m_keyData := keyData, m_velData := velData, m_sampleIndex := sampleIndex,
     m_fineTune := ConvertByteToFineTune fineTune,
     m_originalKey := MidiNote.ofByte originalKey,
     m_volume := volume, m_pan := pan }, s)

/-! ## `E4Voice` -/

/-- The default 24-slot cord array of a voice (8 preset cords, 16 null
cords); codes: `VEL_POLARITY_LESS = 12`, `AMP_VOLUME = 64`,
`PITCH_WHEEL = 16`, `PITCH = 48`, `LFO1_POLARITY_CENTER = 96`,
`MOD_WHEEL = 17`, `CORD_3_AMT = 170`, `FILTER_FREQ = 56`,
`FILTER_ENV_POLARITY_POS = 80`, `KEY_POLARITY_CENTER = 9`,
`FOOTSWITCH_1 = 22`, `KEY_SUSTAIN = 8`. -/
def defaultVoiceCords : List E4Cord :=
  [⟨12, 64, 0⟩, ⟨16, 48, 0⟩, ⟨96, 48, 0⟩, ⟨17, 170, 6⟩,
   ⟨12, 56, 0⟩, ⟨80, 56, 0⟩, ⟨9, 56, 0⟩, ⟨22, 8, 100⟩] ++
  List.replicate 16 ({} : E4Cord)

structure E4Voice where
  m_group : Nat := 0
  m_amplifierData : List Int := [0, 100, 0, 0, 0, 0, 0, 0]
  m_keyData : E4SampleZoneNoteData := {}
  m_velData : E4SampleZoneNoteData := {}
  m_rtData : E4SampleZoneNoteData := {}
  m_keyAssignGroup : Nat := 0
  m_keyDelay : Nat := 0
  m_sampleOffset : Frac := 0
  m_transpose : Int := 0
  m_coarseTune : Int := 0
  m_fineTune : Frac := 0
  m_glideRate : Nat := 0
  m_fixedPitch : Bool := false
  m_keyMode : Nat := 0
  m_chorusWidth : Frac := 100
  m_chorusAmount : Frac := 0
  m_chorusInitItd : Nat := 0
  m_keyLatch : Bool := false
  m_glideCurveType : Nat := 0
  m_volume : Int := 0
  m_pan : Int := 0
  m_ampEnvDynRange : Int := 0
  m_filterType : Nat := 127
  m_filterFrequency : Nat := 20000
  m_filterResonance : Frac := 0
  m_ampEnv : E4Envelope := {}
  m_filterEnv : E4Envelope := {}
  m_auxEnv : E4Envelope := {}
  m_lfo1 : E4LFO := { m_rate := fr 579 100, m_shape := 1, m_keySync := true }
  m_lfo2 : E4LFO := { m_rate := fr 579 100, m_shape := 1, m_keySync := true }
  m_lfoLag1 : Nat := 0
  m_lfoLag2 : Nat := 0
  m_cords : List E4Cord := defaultVoiceCords
  m_zones : List E4SampleZone := []
deriving DecidableEq, Repr

/-- `E4Voice::Write`: a 284-byte head (including the stored size
`284 + 22 * zones`, byteswapped) followed by the 24 cords and the zones. -/
def E4Voice.writeBytes (tf : FloatOps) (v : E4Voice) : List Nat :=
  bytesU16LE (byteswap_uint16 (u16cast (284 + 22 * v.m_zones.length))) ++
  [u8cast v.m_zones.length, u8cast v.m_group] ++
  List.replicate 8 0 ++
  v.m_keyData.writeBytes ++ v.m_velData.writeBytes ++ v.m_rtData.writeBytes ++
  [0] ++
  [u8cast v.m_keyAssignGroup] ++
  bytesU16LE (byteswap_uint16 v.m_keyDelay) ++
  List.replicate 3 0 ++
  [int8ToByte (ConvertPercentToByteF (Frac.clampF v.m_sampleOffset 0 100))] ++
  [int8ToByte v.m_transpose, int8ToByte v.m_coarseTune] ++
  [int8ToByte (ConvertFineTuneToByte v.m_fineTune)] ++
  [u8cast v.m_glideRate, boolToByte v.m_fixedPitch, u8cast v.m_keyMode] ++
  [0] ++
  [ConvertChorusWidthToByte (Frac.clampF v.m_chorusWidth 0 100)] ++
  [int8ToByte (ConvertPercentToByteF (Frac.clampF v.m_chorusAmount 0 100))] ++
  List.replicate 7 0 ++
  [boolToByte v.m_keyLatch] ++
  List.replicate 2 0 ++
  [u8cast v.m_glideCurveType, int8ToByte v.m_volume, int8ToByte v.m_pan] ++
  [0] ++
  [int8ToByte v.m_ampEnvDynRange, u8cast v.m_filterType] ++
  [0] ++
  [u8cast (tf.filterFrequencyToByte (clampN v.m_filterFrequency 57 20000))] ++
  [int8ToByte (ConvertPercentToByteF (Frac.clampF v.m_filterResonance 0 100))] ++
  List.replicate 48 0 ++
  v.m_ampEnv.writeBytes ++ List.replicate 2 0 ++
  v.m_filterEnv.writeBytes ++ List.replicate 2 0 ++
  v.m_auxEnv.writeBytes ++ List.replicate 2 0 ++
  E4LFO.writeBytes tf v.m_lfo1 ++ [0] ++ E4LFO.writeBytes tf v.m_lfo2 ++
  [u8cast v.m_lfoLag1, 0, u8cast v.m_lfoLag2] ++
  List.replicate 20 0 ++
  (v.m_cords.map E4Cord.writeBytes).flatten ++
  (v.m_zones.map E4SampleZone.writeBytes).flatten

/-- `E4Voice::Read`: after the byteswapped stored size fails
`size % 22 == 20`, or the zone count is zero, the decode of this record is
abandoned (the remaining fields are left as they were); otherwise the head
is read field by field, then the 24 cords, then `zoneCount` zones are
appended. -/
def E4Voice.readVoice (tf : FloatOps) (v : E4Voice) (s0 : ByteStream) :
    E4Voice × ByteStream :=
  if byteswap_uint16 (s0.rdU16).1 % 22 ≠ 20 then (v, (s0.rdU16).2)
  else if ((s0.rdU16).2.rdU8).1 = 0 then (v, ((s0.rdU16).2.rdU8).2)
  else
    let s := ((s0.rdU16).2.rdU8).2
    let zoneCount := ((s0.rdU16).2.rdU8).1
    let (group, s) := s.rdU8
      let s := s.skip 8
      let (keyData, s) := E4SampleZoneNoteData.read s
      let (velData, s) := E4SampleZoneNoteData.read s
      let (rtData, s) := E4SampleZoneNoteData.read s
      let s := s.skip 1
      let (keyAssignGroup, s) := s.rdU8
      let (kdRaw, s) := s.rdU16
      let keyDelay := byteswap_uint16 kdRaw
      let s := s.skip 3
      let (sampleOffset, s) := s.rdU8
      let (transpose, s) := s.rdI8
      let (coarseTune, s) := s.rdI8
      let (fineTune, s) := s.rdI8
      let (glideRate, s) := s.rdU8
      let (fixedPitch, s) := s.rdU8
      let (keyMode, s) := s.rdU8
      let s := s.skip 1
      let (chorusWidth, s) := s.rdU8
      let (chorusAmount, s) := s.rdU8
      let s := s.skip 1
      let (chorusInitItd, s) := s.rdU8
      let s := s.skip 5
      let (keyLatch, s) := s.rdU8
      let s := s.skip 2
      let (glideCurveType, s) := s.rdU8
      let (volume, s) := s.rdI8
      let (pan, s) := s.rdI8
      let s := s.skip 1
      let (ampEnvDynRange, s) := s.rdI8
      let (filterType, s) := s.rdU8
      let s := s.skip 1
      let (filterFreq, s) := s.rdU8
      let (filterRes, s) := s.rdU8
      let s := s.skip 48
      let (ampEnv, s) := E4Envelope.read s
      let s := s.skip 2
      let (filterEnv, s) := E4Envelope.read s
      let s := s.skip 2
      let (auxEnv, s) := E4Envelope.read s
      let s := s.skip 2
      let (lfo1, s) := E4LFO.read tf s
      let s := s.skip 1
      let (lfo2, s) := E4LFO.read tf s
      let (lfoLag1, s) := s.rdU8
      let s := s.skip 1
      let (lfoLag2, s) := s.rdU8
      let s := s.skip 20
      let (cords, s) := readN E4Cord.read 24 s
      let (zones, s) := readN E4SampleZone.read zoneCount s
      ({ v with
          m_group := group, m_keyData := keyData, m_velData := velData,
          m_rtData := rtData, m_keyAssignGroup := keyAssignGroup,
          m_keyDelay := keyDelay,
          m_sampleOffset := ConvertByteToPercentF (sampleOffset : Int),
          m_transpose := transpose, m_coarseTune := coarseTune,
          m_fineTune := ConvertByteToFineTune fineTune,
          m_glideRate := glideRate, m_fixedPitch := byteToBool fixedPitch,
          m_keyMode := keyMode,
          m_chorusWidth := GetChorusWidthPercent chorusWidth,
          m_chorusAmount :=
            round_places (ConvertByteToPercentF (chorusAmount : Int)) 2,
          m_chorusInitItd := chorusInitItd, m_keyLatch := byteToBool keyLatch,
          m_glideCurveType := glideCurveType, m_volume := volume, m_pan := pan,
          m_ampEnvDynRange := ampEnvDynRange, m_filterType := filterType,
          m_filterFrequency := tf.byteToFilterFrequency filterFreq,
          m_filterResonance :=
            round_places (ConvertByteToPercentF (filterRes : Int)) 1,
          m_ampEnv := ampEnv, m_filterEnv := filterEnv, m_auxEnv := auxEnv,
          m_lfo1 := lfo1, m_lfo2 := lfo2, m_lfoLag1 := lfoLag1,
          m_lfoLag2 := lfoLag2, m_cords := cords,
          m_zones := v.m_zones ++ zones }, s)

/-! ## `E4Preset` -/

structure E4Preset where
  m_index : Nat := 0
  m_name : List Nat := []
  m_transpose : Int := 0
  m_volume : Int := 0
  m_initialMIDIControllers : List Nat := [255, 255, 255, 255]
  m_voices : List E4Voice := []
deriving DecidableEq, Repr

/-- `E4Preset::SetIndex`: the sentinel 0xFFFF is kept (auto-assignment on
insert); anything else is clamped to `[0, 1000]`. -/
def E4Preset.SetIndex (p : E4Preset) (index : Nat) : E4Preset :=
  if index = 65535 then { p with m_index := index }
  else { p with m_index := clampN index 0 1000 }

/-- The `E4Preset(name, voices, index)` constructor. -/
def E4Preset.make (presetName : List Nat) (voices : List E4Voice)
    (index : Nat := 65535) : E4Preset :=
  E4Preset.SetIndex
    { m_voices := voices, m_name := ApplyEOSNamingStandards presetName } index

/-- `E4Preset::Write`: byteswapped index, 16-byte name, the constant 82
(byteswapped), byteswapped voice count, reserved bytes, transpose, volume,
24 reserved bytes, the four bytes `'R' '#' '\0' '~'`, the four initial MIDI
controllers, 24 reserved bytes, then each voice. -/
def E4Preset.writeBytes (tf : FloatOps) (p : E4Preset) : List Nat :=
  bytesU16LE (byteswap_uint16 p.m_index) ++
  takePad p.m_name 16 ++
  bytesU16LE (byteswap_uint16 82) ++
  bytesU16LE (byteswap_uint16 (u16cast p.m_voices.length)) ++
  List.replicate 4 0 ++
  [int8ToByte p.m_transpose, int8ToByte p.m_volume] ++
  List.replicate 24 0 ++
  [82, 35, 0, 126] ++
  takePad p.m_initialMIDIControllers 4 ++
  List.replicate 24 0 ++
  (p.m_voices.map (E4Voice.writeBytes tf)).flatten

/-- `E4Preset::Read`: index and name, then the data-size word which must be
82 or the record decode is abandoned; then voice count and the remaining
header, then `numVoices` voice records (each on a fresh default voice). -/
def E4Preset.read (tf : FloatOps) (s : ByteStream) : E4Preset × ByteStream :=
  let (idxRaw, s) := s.rdU16
  let index := byteswap_uint16 idxRaw
  let (name, s) := s.rdBytes 16
  let (unkRaw, s) := s.rdU16
  let unknown := byteswap_uint16 unkRaw
  if unknown ≠ 82 then ({ m_index := index, m_name := name }, s)
  else
    let (nvRaw, s) := s.rdU16
    let numVoices := byteswap_uint16 nvRaw
    let s := s.skip 4
    let (transpose, s) := s.rdI8
    let (volume, s) := s.rdI8
    let s := s.skip 28
    let (controllers, s) := s.rdBytes 4
    let s := s.skip 24
    let (voices, s) := readN (fun t => E4Voice.readVoice tf {} t) numVoices s
    ({ m_index := index, m_name := name, m_transpose := transpose,
       m_volume := volume, m_initialMIDIControllers := controllers,
       m_voices := voices }, s)

/-! ## `E3Sample` -/

structure SampleLoopInfo where
  m_loop : Bool := false
  m_loopInRelease : Bool := false
  m_loopStart : Nat := 0
  m_loopEnd : Nat := 0
deriving DecidableEq, Repr

/-- `E3SampleHelpers` format flags: `EOS_MONO_SAMPLE_L = 0x00200000`,
`EOS_MONO_SAMPLE_R = 0x00400000`, `EOS_STEREO_SAMPLE = 0x00600000`,
`SAMPLE_LOOP_FLAG = 0x00010000`, `SAMPLE_RELEASE_FLAG = 0x00080000`. -/
def GetNumChannels (format : Nat) : Nat :=
  if format &&& 0x00600000 = 0x00600000 then 2
  else if format &&& 0x00200000 = 0x00200000 ∨ format &&& 0x00400000 = 0x00400000 then 1
  else 1

/-- `E3SampleHelpers::IsLooping`. -/
def IsLooping (format : Nat) : Bool := format &&& 0x00010000 = 0x00010000

/-- `E3SampleHelpers::IsLoopingInRelease`. -/
def IsLoopingInRelease (format : Nat) : Bool := format &&& 0x00080000 = 0x00080000

/-- Subtraction with `uint32_t` wrap-around. -/
def u32sub (a b : Nat) : Nat := u32cast (a + 4294967296 - b)

structure E3SampleParams where
  m_unknown : Nat := 0
  m_sampleStartL : Nat := 92
  m_sampleStartR : Nat := 92
  m_sampleEndL : Nat := 0
  m_sampleEndR : Nat := 0
  m_loopStartL : Nat := 0
  m_loopStartR : Nat := 0
  m_loopEndL : Nat := 0
  m_loopEndR : Nat := 0
deriving DecidableEq, Repr

/-- The `E3SampleParams(numSamples, numChannels, loopStart, loopEnd)`
constructor (sample start/end bookkeeping with the fixed 92-byte header
offset, then `SetLoopStart`/`SetLoopEnd` with their clamps).  The `uint32_t`
expression `numSamples - 1` is embedded as a truncating `Nat` subtraction;
empty sample data never reaches this constructor through `E3Sample::Write`,
which refuses empty payloads. -/
def E3SampleParams.make (numSamples numChannels loopStart loopEnd : Nat) :
    E3SampleParams :=
  let startL : Nat := 92
  let startR := if numChannels = 1 then startL else numSamples + 92
  let endL := if numChannels = 1 then numSamples * 2 + 92 - 2 else numSamples + 92 - 2
  let endR := if numChannels = 1 then endL else numSamples * 2 + 92 - 2
  let ls := clampN loopStart 0 (numSamples - 1)
  let le := clampN loopEnd 0 numSamples
  { m_sampleStartL := startL, m_sampleStartR := startR,
    m_sampleEndL := endL, m_sampleEndR := endR,
    m_loopStartL := ls * 2 + startL,
    m_loopStartR := if numChannels = 1 then ls * 2 + startL else ls * 2 + startR,
    m_loopEndL := le * 2 + startL - 2,
    m_loopEndR := if numChannels = 1 then le * 2 + startL - 2 else le * 2 + startR - 2 }

/-- `E3SampleParams::Write`: nine raw `uint32_t` values. -/
def E3SampleParams.writeBytes (p : E3SampleParams) : List Nat :=
  bytesU32LE p.m_unknown ++ bytesU32LE p.m_sampleStartL ++
  bytesU32LE p.m_sampleStartR ++ bytesU32LE p.m_sampleEndL ++
  bytesU32LE p.m_sampleEndR ++ bytesU32LE p.m_loopStartL ++
  bytesU32LE p.m_loopStartR ++ bytesU32LE p.m_loopEndL ++
  bytesU32LE p.m_loopEndR

/-- `E3SampleParams::Read`: nine raw `uint32_t` values. -/
def E3SampleParams.read (s : ByteStream) : E3SampleParams × ByteStream :=
  let (unknown, s) := s.rdU32
  let (startL, s) := s.rdU32
  let (startR, s) := s.rdU32
  let (endL, s) := s.rdU32
  let (endR, s) := s.rdU32
  let (loopStartL, s) := s.rdU32
  let (loopStartR, s) := s.rdU32
  let (loopEndL, s) := s.rdU32
  let (loopEndR, s) := s.rdU32
  (⟨unknown, startL, startR, endL, endR, loopStartL, loopStartR, loopEndL, loopEndR⟩, s)

/-- `E3SampleParams::GetLoopStartL`: `(m_loopStartL - 92) / 2` in `uint32_t`
arithmetic. -/
def E3SampleParams.GetLoopStartL (p : E3SampleParams) : Nat :=
  u32sub p.m_loopStartL 92 / 2

/-- `E3SampleParams::GetLoopEndL`: `(m_loopEndL - 92 + 2) / 2` in `uint32_t`
arithmetic. -/
def E3SampleParams.GetLoopEndL (p : E3SampleParams) : Nat :=
  u32cast (u32sub p.m_loopEndL 92 + 2) / 2

structure E3Sample where
  m_index : Nat := 65535
  m_name : List Nat := []
  m_extraParams : List Nat := List.replicate 32 0
  m_loopInfo : SampleLoopInfo := {}
  m_sampleRate : Nat := 0
  m_numChannels : Nat := 0
  m_sampleData : List Int := []
  m_params : E3SampleParams := {}
deriving DecidableEq, Repr

/-- `E3Sample::SetIndex` (same contract as the preset's). -/
def E3Sample.SetIndex (smp : E3Sample) (index : Nat) : E3Sample :=
  if index = 65535 then { smp with m_index := index }
  else { smp with m_index := clampN index 0 1000 }

/-- The `E3Sample(name, data, rate, channels, loopInfo, index)` constructor;
`m_params` is built from the data length and the unclamped channel count. -/
def E3Sample.make (sampleName : List Nat) (sampleData : List Int)
    (sampleRate numChannels : Nat) (loopInfo : SampleLoopInfo)
    (index : Nat := 65535) : E3Sample :=
  E3Sample.SetIndex
    { m_loopInfo := loopInfo, m_sampleRate := clampN sampleRate 7000 192000,
      m_numChannels := clampN numChannels 1 2, m_sampleData := sampleData,
      m_name := ApplyEOSNamingStandards sampleName,
      m_params := E3SampleParams.make sampleData.length numChannels
        loopInfo.m_loopStart loopInfo.m_loopEnd } index

/-- `E3Sample::Write`: empty sample data writes nothing; otherwise the
byteswapped index, 16-byte name, params, raw sample rate, format flags,
the 8 reserved `uint32_t` extra parameters, then the raw 16-bit PCM data. -/
def E3Sample.writeBytes (smp : E3Sample) : List Nat :=
  if smp.m_sampleData = [] then []
  else
    bytesU16LE (byteswap_uint16 smp.m_index) ++
    takePad smp.m_name 16 ++
    smp.m_params.writeBytes ++
    bytesU32LE smp.m_sampleRate ++
    bytesU32LE
      (let fmt := if smp.m_numChannels = 1 then 0x00200000 else 0x00600000
       let fmt := if smp.m_loopInfo.m_loop then fmt ||| 0x00010000 else fmt
       if smp.m_loopInfo.m_loopInRelease then fmt ||| 0x00080000 else fmt) ++
    takePad smp.m_extraParams 32 ++
    (smp.m_sampleData.map bytesI16LE).flatten

/-- Group a byte list into little-endian `int16_t` samples. -/
def bytesToI16s : List Nat → List Int
  | b0 :: b1 :: rest => leI16 b0 b1 :: bytesToI16s rest
  | _ => []

/-- `E3Sample::Read(stream, subChunkSize)`: the fixed 94-byte header, then
`(subChunkSize - 94) / 2` PCM samples. -/
def E3Sample.read (s : ByteStream) (subChunkSize : Nat) : E3Sample × ByteStream :=
  let (idxRaw, s) := s.rdU16
  let index := byteswap_uint16 idxRaw
  let (name, s) := s.rdBytes 16
  let (params, s) := E3SampleParams.read s
  let (rate, s) := s.rdU32
  let (format, s) := s.rdU32
  let numChannels := GetNumChannels format
  let loopInfo : SampleLoopInfo :=
    { m_loop := IsLooping format, m_loopInRelease := IsLoopingInRelease format,
      m_loopStart := params.GetLoopStartL, m_loopEnd := params.GetLoopEndL }
  let (extra, s) := s.rdBytes 32
  let dataLen := (subChunkSize - 94) / 2
  let (dataBytes, s) := s.rdBytes (2 * dataLen)
  ({ m_index := index, m_name := name, m_extraParams := extra,
     m_loopInfo := loopInfo, m_sampleRate := rate, m_numChannels := numChannels,
     m_sampleData := bytesToI16s dataBytes, m_params := params }, s)

/-! ## `E4Sequence` -/

structure E4Sequence where
  m_index : Nat := 65535
  m_name : List Nat := []
  m_midiData : List Nat := []
deriving DecidableEq, Repr

/-- `E4Sequence::SetIndex` (same contract as the preset's). -/
def E4Sequence.SetIndex (q : E4Sequence) (index : Nat) : E4Sequence :=
  if index = 65535 then { q with m_index := index }
  else { q with m_index := clampN index 0 1000 }

/-- The `E4Sequence(name, midiData, index)` constructor. -/
def E4Sequence.make (seqName : List Nat) (midiData : List Nat)
    (index : Nat := 65535) : E4Sequence :=
  E4Sequence.SetIndex
    { m_midiData := midiData, m_name := ApplyEOSNamingStandards seqName } index

/-- `E4Sequence::Write`: empty MIDI data writes nothing; otherwise the
byteswapped index, 16-byte name, raw MIDI payload. -/
def E4Sequence.writeBytes (q : E4Sequence) : List Nat :=
  if q.m_midiData = [] then []
  else
    bytesU16LE (byteswap_uint16 q.m_index) ++ takePad q.m_name 16 ++ q.m_midiData

/-- `E4Sequence::Read(stream, subChunkSize)`: the 18-byte header, then
`subChunkSize - 18` payload bytes. -/
def E4Sequence.read (s : ByteStream) (subChunkSize : Nat) : E4Sequence × ByteStream :=
  let (idxRaw, s) := s.rdU16
  let index := byteswap_uint16 idxRaw
  let (name, s) := s.rdBytes 16
  let (midiData, s) := s.rdBytes (subChunkSize - 18)
  ({ m_index := index, m_name := name, m_midiData := midiData }, s)

/-! ## `E4EMSt` (startup / multi-setup state) -/

structure E4MIDIChannel where
  m_volume : Nat := 127
  m_pan : Int := 0
  m_possibleRedundant1 : List Nat := [0, 0, 0]
  m_aux : Nat := 255
  m_controllers : List Nat := List.replicate 16 0
  m_possibleRedundant2 : List Nat := [0, 0, 0, 0, 127, 0, 0, 0]
  m_presetNum : Nat := 65535
deriving DecidableEq, Repr

/-- The 32 memory bytes of an `E4MIDIChannel` (the trailing `uint16_t` is
stored in host little-endian order, as the struct is written by `memcpy`). -/
def E4MIDIChannel.writeBytes (c : E4MIDIChannel) : List Nat :=
  [u8cast c.m_volume, int8ToByte c.m_pan] ++
  takePad c.m_possibleRedundant1 3 ++ [u8cast c.m_aux] ++
  takePad c.m_controllers 16 ++ takePad c.m_possibleRedundant2 8 ++
  bytesU16LE c.m_presetNum

/-- Reading 32 bytes back into an `E4MIDIChannel`. -/
def E4MIDIChannel.read (s : ByteStream) : E4MIDIChannel × ByteStream :=
  let (volume, s) := s.rdU8
  let (pan, s) := s.rdI8
  let (red1, s) := s.rdBytes 3
  let (aux, s) := s.rdU8
  let (controllers, s) := s.rdBytes 16
  let (red2, s) := s.rdBytes 8
  let (presetNum, s) := s.rdU16
  ({ m_volume := volume, m_pan := pan, m_possibleRedundant1 := red1,
     m_aux := aux, m_controllers := controllers, m_possibleRedundant2 := red2,
     m_presetNum := presetNum }, s)

structure E4EMSt where
  m_name : List Nat := []
  m_currentPreset : Nat := 0
  m_midiChannels : List E4MIDIChannel := List.replicate 32 {}
  m_tempo : Nat := 20
deriving DecidableEq, Repr

/-- The `E4EMSt(name, currentPreset)` constructor. -/
def E4EMSt.make (emstName : List Nat) (currentPreset : Nat) : E4EMSt :=
  { m_name := ApplyEOSNamingStandards emstName, m_currentPreset := currentPreset }

/-- `E4EMSt::Write`: two reserved bytes, 16-byte name, four reserved bytes,
`m_currentPreset` written as raw host bytes (the source does NOT byteswap
here, unlike its own `Read`), the 32 MIDI channel records, five reserved
bytes, tempo, and 312 reserved bytes. -/
def E4EMSt.writeBlob (e : E4EMSt) : Blob :=
  Blob.app (Blob.ofList ([0, 0] ++ takePad e.m_name 16 ++ List.replicate 4 0 ++
      bytesU16LE e.m_currentPreset))
    (Blob.app (Blob.concatList (e.m_midiChannels.map
        (fun c => Blob.ofList (E4MIDIChannel.writeBytes c))))
      (Blob.app (Blob.zeros 5)
        (Blob.app (Blob.ofList [u8cast e.m_tempo]) (Blob.zeros 312))))

/-- `E4EMSt::Read`: the same layout, with `m_currentPreset` byteswapped
after the raw read. -/
def E4EMSt.read (s : ByteStream) : E4EMSt × ByteStream :=
  let s := s.skip 2
  let (name, s) := s.rdBytes 16
  let s := s.skip 4
  let (cpRaw, s) := s.rdU16
  let currentPreset := byteswap_uint16 cpRaw
  let (channels, s) := readN E4MIDIChannel.read 32 s
  let s := s.skip 5
  let (tempo, s) := s.rdU8
  let s := s.skip 312
  ({ m_name := name, m_currentPreset := currentPreset,
     m_midiChannels := channels, m_tempo := tempo }, s)

/-! ## `E4BBank`

`AddPreset`, `AddSample` and `AddSequence` are three textually identical
members of the source; they are embedded as one generic function
instantiated three times.  The steps, in source order: normalise the name
(a no-op on 16-byte names), reject an index already present, then handle
out-of-range indices (the 0xFFFF sentinel is auto-assigned the current
collection size while the collection is below the cap; any other index at
or above the cap is rejected), else append. -/

def addIndexedEntity {α : Type} (getIdx : α → Nat) (setIdx : α → Nat → α)
    (normalizeName : α → α) (maxCount : Nat) (entities : List α) (x : α) : List α :=
  let x := normalizeName x
  if entities.any (fun e => getIdx e == getIdx x) then entities
  else if maxCount ≤ getIdx x then
    if getIdx x = 65535 then
      if entities.length < maxCount then entities ++ [setIdx x entities.length]
      else entities
    else entities
  else entities ++ [x]

/-- `RemoveIfValid`: checks that some element carries `m_index == index`,
then erases the element at POSITION `index` (`std::next(begin(), index)`).
An in-range erase is embedded exactly; an out-of-range position is
undefined behaviour in the source and a no-op here. -/
def RemoveIfValid {α : Type} (getIdx : α → Nat) (vector : List α) (index : Nat) :
    List α :=
  let isValidIndex := vector.any (fun e => getIdx e == index)
  if isValidIndex then vector.eraseIdx index else vector

/-- Name normalisation applied by the bank inserts (the source guards the
call with `length != 16`, and `ApplyEOSNamingStandards` is the identity on
length-16 names, so the unconditional composition is the same function). -/
def E4Preset.normalizeName (p : E4Preset) : E4Preset :=
  { p with m_name := ApplyEOSNamingStandards p.m_name }

/-- Name normalisation for samples, as for presets. -/
def E3Sample.normalizeName (smp : E3Sample) : E3Sample :=
  { smp with m_name := ApplyEOSNamingStandards smp.m_name }

/-- Name normalisation for sequences, as for presets. -/
def E4Sequence.normalizeName (q : E4Sequence) : E4Sequence :=
  { q with m_name := ApplyEOSNamingStandards q.m_name }

structure E4BBank where
  m_presets : List E4Preset := []
  m_samples : List E3Sample := []
  m_sequences : List E4Sequence := []
  m_startupPreset : Nat := 0
deriving DecidableEq, Repr

/-- `E4BBank::AddPreset` (`EOS_E4_MAX_PRESETS = 1000`). -/
def E4BBank.AddPreset (b : E4BBank) (preset : E4Preset) : E4BBank :=
  { b with m_presets :=
      (addIndexedEntity E4Preset.m_index (fun p i => { p with m_index := i })
        E4Preset.normalizeName 1000 b.m_presets preset) }

/-- `E4BBank::AddSample` (`EOS_E4_MAX_SAMPLES = 1000`). -/
def E4BBank.AddSample (b : E4BBank) (sample : E3Sample) : E4BBank :=
  { b with m_samples :=
      (addIndexedEntity E3Sample.m_index (fun p i => { p with m_index := i })
        E3Sample.normalizeName 1000 b.m_samples sample) }

/-- `E4BBank::AddSequence` (`EOS_E4_MAX_SEQUENCES = 1000`). -/
def E4BBank.AddSequence (b : E4BBank) (sequence : E4Sequence) : E4BBank :=
  { b with m_sequences :=
      (addIndexedEntity E4Sequence.m_index (fun p i => { p with m_index := i })
        E4Sequence.normalizeName 1000 b.m_sequences sequence) }

/-- `E4BBank::RemovePreset`. -/
def E4BBank.RemovePreset (b : E4BBank) (presetIndex : Nat) : E4BBank :=
  { b with m_presets := RemoveIfValid E4Preset.m_index b.m_presets presetIndex }

/-- `E4BBank::RemoveSample`. -/
def E4BBank.RemoveSample (b : E4BBank) (sampleIndex : Nat) : E4BBank :=
  { b with m_samples := RemoveIfValid E3Sample.m_index b.m_samples sampleIndex }

/-- `E4BBank::RemoveSequence`. -/
def E4BBank.RemoveSequence (b : E4BBank) (sequenceIndex : Nat) : E4BBank :=
  { b with m_sequences := RemoveIfValid E4Sequence.m_index b.m_sequences sequenceIndex }

/-- `E4BBank::GetPreset`: `find_if` on the index; the expired `weak_ptr`
of the source becomes `none`. -/
def E4BBank.GetPreset (b : E4BBank) (presetIndex : Nat) : Option E4Preset :=
  b.m_presets.find? (fun e => e.m_index == presetIndex)

/-- `E4BBank::SetStartupPreset`: a no-op on an empty bank; the 0xFFFF
sentinel is always stored; a present index is stored; an absent index
falls back to the first preset's index. -/
def E4BBank.SetStartupPreset (b : E4BBank) (presetIndex : Nat) : E4BBank :=
  match b.m_presets with
  | [] => b
  | p0 :: _ =>
    if presetIndex = 65535 then { b with m_startupPreset := presetIndex }
    else
      match b.GetPreset presetIndex with
      | some _ => { b with m_startupPreset := presetIndex }
      | none => { b with m_startupPreset := p0.m_index }

/-! ## `WriteE4B` -/

/-- Append a child chunk (`m_subChunks.emplace_back`). -/
def appendSub (c : FORMChunk) (child : FORMChunk) : FORMChunk :=
  match c with
  | .mk nm rs w subs => .mk nm rs w (subs.push child)

/-- The `AddTOCIndex` lambda of `WriteE4B`: build a table-of-contents entry
chunk named after the sub-block, whose explicit size is the sub-block's
header-less size minus 2, and whose payload is the byteswapped absolute
offset `FORM.GetFullSize(true) + 32` (the tree's size so far plus this very
entry), the byteswapped entity index, the entity name, and two null bytes;
the entry is appended to `FORM.m_subChunks[0]` (the TOC). -/
def AddTOCIndex (FORM : FORMChunk) (subChunk : FORMChunk) (index : Nat)
    (name : List Nat) : FORMChunk :=
  let TOCSubchunk : FORMChunk :=
    .mk subChunk.GetName (FORMChunk.GetFullSize false subChunk - 2)
      (Blob.ofList
        (bytesU32LE (byteswap_uint32 (FORMChunk.GetFullSize true FORM + 32)) ++
         bytesU16LE (byteswap_uint16 index) ++ name ++ [0, 0])) .nil
  match FORM with
  | .mk nm rs w .nil => .mk nm rs w .nil
  | .mk nm rs w (.cons TOC rest) =>
    .mk nm rs w (.cons (appendSub TOC TOCSubchunk) rest)

/-- `WriteE4B`: build `FORM` with payload `"E4B0"` and an initially empty
`TOC1` child; for each preset then each sample, build its sub-block, add
its TOC entry, and append the sub-block to `FORM`; append the trailing
`EMSt` startup block; serialize the tree.  A path without the `.e4b`
extension writes nothing (the file byte list is empty). -/
def WriteE4B (tf : FloatOps) (isEOSFileFormat : Bool) (inBank : E4BBank) :
    Blob :=
  if !isEOSFileFormat then {}
  else
    let FORM : FORMChunk := .mk (strBytes "FORM") 0 (Blob.ofList (strBytes "E4B0"))
      (.cons (.mk (strBytes "TOC1") 0 {} .nil) .nil)
    let FORM := inBank.m_presets.foldl (fun FORM preset =>
      let E4P1 : FORMChunk :=
        .mk (strBytes "E4P1") 0 (Blob.ofList (E4Preset.writeBytes tf preset)) .nil
      let FORM := AddTOCIndex FORM E4P1 preset.m_index preset.m_name
      appendSub FORM E4P1) FORM
    let FORM := inBank.m_samples.foldl (fun FORM sample =>
      let E3S1 : FORMChunk :=
        .mk (strBytes "E3S1") 0 (Blob.ofList (E3Sample.writeBytes sample)) .nil
      let FORM := AddTOCIndex FORM E3S1 sample.m_index sample.m_name
      appendSub FORM E3S1) FORM
    let EMSt : FORMChunk := .mk (strBytes "EMSt") 0
      (E4EMSt.writeBlob
        (E4EMSt.make (strBytes "Untitled MSetup ") inBank.m_startupPreset)) .nil
    let FORM := appendSub FORM EMSt
    FORMChunk.serializeC FORM

/-! ## `ReadE4B` -/

inductive EE4BReadResult where
  | READ_SUCCESS
  | FILE_NOT_EXIST
  | FILE_INVALID
deriving DecidableEq, Repr

/-- The table-of-contents walk of `ReadE4B`, by remaining entry count.
Each iteration caches the stream position, reads the entry header and the
byteswapped absolute offset, seeks to `offset + 8` and dispatches on the
entry tag; an unknown tag aborts with `FILE_INVALID` (the bank keeps the
entities already inserted, as through the caller's out-parameter).  After
any entry but the last, the stream seeks to the next 32-byte entry; after
the last, if the stream is not at end of file, a trailing `EMSt` block is
read and applied through `SetStartupPreset`. -/
def ReadE4BLoop (tf : FloatOps) :
    Nat → ByteStream → E4BBank → EE4BReadResult × E4BBank
  | 0, _, outBank => (.READ_SUCCESS, outBank)
  | remaining + 1, stream0, outBank0 =>
    let cachedStreamPos := stream0.pos
    let ((subName, subSize), stream) := FORMChunk.ReadHdr stream0
    let (posRaw, stream) := stream.rdU32
    let subchunkPos := byteswap_uint32 posRaw
    let stream := stream.seek (subchunkPos + (4 + 4))
    let next : ByteStream → E4BBank → EE4BReadResult × E4BBank :=
      fun stream outBank =>
        if 0 < remaining then
          ReadE4BLoop tf remaining (stream.seek (cachedStreamPos + 32)) outBank
        else if stream.pos < stream.data.size then
          let ((tName, _), tStream) := FORMChunk.ReadHdr stream
          if tName = strBytes "EMSt" then
            let (startup, _) := E4EMSt.read tStream
            (.READ_SUCCESS, outBank.SetStartupPreset startup.m_currentPreset)
          else (.READ_SUCCESS, outBank)
        else (.READ_SUCCESS, outBank)
    if subName = strBytes "E4P1" then
      let (preset, stream) := E4Preset.read tf stream
      next stream (outBank0.AddPreset preset)
    else if subName = strBytes "E3S1" then
      let (sample, stream) := E3Sample.read stream (subSize + 2)
      next stream (outBank0.AddSample sample)
    else if subName = strBytes "E4s1" then
      let (sequence, stream) := E4Sequence.read stream (subSize + 2)
      next stream (outBank0.AddSequence sequence)
    else if subName = strBytes "E4Ma" ∨ subName = strBytes "EMS0" then
      next (stream.skip subSize) outBank0
    else (.FILE_INVALID, outBank0)

/-- `ReadE4B` on an in-memory file: the extension and existence checks are
the two booleans (a non-`.e4b` path is `FILE_INVALID`, a missing file falls
to the final `FILE_NOT_EXIST`); then the outer `FORM` header, the `E4B0`
identifier and the `TOC1` header are verified and the entry walk runs.
Note the fall-through of the source: a wrong OUTER tag skips the whole
`if (form == "FORM")` block and reaches the final `return FILE_NOT_EXIST`,
while the inner mismatches return `FILE_INVALID`. -/
def ReadE4B (tf : FloatOps) (isEOSFileFormat fileExists : Bool)
    (data : Blob) (outBank : E4BBank := {}) : EE4BReadResult × E4BBank :=
  if !isEOSFileFormat then (.FILE_INVALID, outBank)
  else if fileExists then
    let stream : ByteStream := ⟨data, 0⟩
    let ((formName, _), stream) := FORMChunk.ReadHdr stream
    if formName = strBytes "FORM" then
      let (e4b0, stream) := stream.rdBytes 4
      if e4b0 = strBytes "E4B0" then
        let ((tocName, tocSize), stream) := FORMChunk.ReadHdr stream
        if tocName = strBytes "TOC1" then
          let numSubchunks := tocSize / 32
          if 0 < numSubchunks then ReadE4BLoop tf numSubchunks stream outBank
          else (.FILE_INVALID, outBank)
        else (.FILE_INVALID, outBank)
      else (.FILE_INVALID, outBank)
    else (.FILE_NOT_EXIST, outBank)
  else (.FILE_NOT_EXIST, outBank)

/-! ## Concrete instances used by the evaluation theorems

`tf0` and `tf255` are two different instantiations of the six
floating-point transfer functions; the facts proved below hold for both,
showing they do not depend on the transfer functions' values (which only
ever influence five voice-parameter bytes inside a voice record). -/

/-- A second fixed instantiation of `FloatOps` (every byte result 255,
every unit result 255). -/
def tf255 : FloatOps :=
  ⟨fun _ => 255, fun _ => 255, fun _ => ⟨255, 1⟩, fun _ => 255,
   fun _ => ⟨255, 1⟩, fun _ => 255⟩

/-- The voice of the concrete scenario of spec §8: one zone covering the
full key/velocity range (the construction default), referencing sample 0,
original key C3. -/
def scenVoice : E4Voice := { m_zones := [E4SampleZone.make 0 (MidiNote.make 0 3)] }

/-- The concrete scenario bank of spec §8: one preset "Test Preset" with
one voice, one mono 44100 Hz sample with 4 PCM frames, startup preset set
to the preset's (auto-assigned) index 0. -/
def scenBank : E4BBank :=
  (((({} : E4BBank).AddPreset
      (E4Preset.make (strBytes "Test Preset") [scenVoice])).AddSample
      (E3Sample.make (strBytes "Test Sample") [1, 2, 3, 4] 44100 1 {})).SetStartupPreset 0)

/-- A bank with two presets (explicit indices 0 and 1, no voices) whose
startup preset is 1: the smallest shape on which the startup-preset
round-trip through the file format can be observed. -/
def c1Bank : E4BBank :=
  (((({} : E4BBank).AddPreset (E4Preset.make (strBytes "Preset Zero") [] 0)).AddPreset
      (E4Preset.make (strBytes "Preset One") [] 1)).SetStartupPreset 1)

/-- An existing file whose outer tag is `XXXX` instead of `FORM`. -/
def c4File : Blob := Blob.ofList (strBytes "XXXXAAAA" ++ List.replicate 24 0)

/-- Insert a preset with explicit index 1, then one with the auto-assign
sentinel index: the sentinel insert is assigned index `size = 1`,
duplicating the existing index. -/
def c5Bank : E4BBank :=
  (({} : E4BBank).AddPreset (E4Preset.make (strBytes "Preset A") [] 1)).AddPreset
    (E4Preset.make (strBytes "Preset B") [])

/-- A bank whose preset at position 0 has index 1 and whose preset at
position 1 has index 0 (inserted in that order). -/
def c6Bank : E4BBank :=
  (({} : E4BBank).AddPreset (E4Preset.make (strBytes "Preset A") [] 1)).AddPreset
    (E4Preset.make (strBytes "Preset B") [] 0)

/-- A preset carrying the auto-assign sentinel index. -/
def mkSentinelPreset : E4Preset := E4Preset.make (strBytes "Empty Preset") []

/-- The bank holding one preset with explicit index 1. -/
def bankIdx1 : E4BBank :=
  ({} : E4BBank).AddPreset (E4Preset.make (strBytes "First Preset") [] 1)

/-- `n` successive sentinel-indexed `AddPreset` calls. -/
def iterAddSentinel : Nat → E4BBank → E4BBank
  | 0, b => b
  | n + 1, b => (iterAddSentinel n b).AddPreset mkSentinelPreset

/-- A preset with a given index, for bulk-built bank states. -/
def fdbPreset (i : Nat) : E4Preset :=
  { m_index := i, m_name := strBytes "Witness Preset  " }

/-- A sample with a given index. -/
def fdbSample (i : Nat) : E3Sample :=
  { m_index := i, m_name := strBytes "Witness Sample  " }

/-- A sequence with a given index. -/
def fdbSequence (i : Nat) : E4Sequence :=
  { m_index := i, m_name := strBytes "Witness Sequence" }

/-- A bank whose three collections each hold 1000 entities with the
pairwise-distinct indices 0..999 (the hypothesis shape of the amended
capacity statement). -/
def fullDistinctBank : E4BBank :=
  { m_presets := (List.range 1000).map fdbPreset,
    m_samples := (List.range 1000).map fdbSample,
    m_sequences := (List.range 1000).map fdbSequence }

/-- A one-preset bank (index 3) for exercising the startup-preset rules. -/
def c9Bank : E4BBank :=
  ({} : E4BBank).AddPreset (E4Preset.make (strBytes "Preset A") [] 3)

/-- The single stored preset of `c9Bank` (its name already normalised by
the insert). -/
def c9Preset : E4Preset :=
  E4Preset.normalizeName (E4Preset.make (strBytes "Preset A") [] 3)

/-- A stream whose first word decodes (big-endian) to 1, and 1 % 22 ≠ 20. -/
def c10BadSizeStream : ByteStream := ⟨Blob.ofList [0, 1, 5, 5], 0⟩

/-- A stream whose first word decodes (big-endian) to 20 (so
20 % 22 == 20) followed by a zero zone count. -/
def c10ZeroZonesStream : ByteStream := ⟨Blob.ofList [0, 20, 0, 5], 0⟩

/-! ## Behaviour of `addIndexedEntity`

Step lemmas covering the four paths of an insert (duplicate index,
fresh index below the cap, fresh index at or above the cap, sentinel
index), and the derived facts the claims need. -/

/-- An insert whose (normalised) index is already stored is rejected. -/
theorem addIndexed_mem {α : Type} (getIdx : α → Nat) (setIdx : α → Nat → α)
    (norm : α → α) (maxN : Nat) (xs : List α) (x : α)
    (h : ∃ e ∈ xs, getIdx e = getIdx (norm x)) :
    addIndexedEntity getIdx setIdx norm maxN xs x = xs := by
  unfold addIndexedEntity
  have hany : xs.any (fun e => getIdx e == getIdx (norm x)) = true := by
    simp only [List.any_eq_true, beq_iff_eq]; exact h
  simp [hany]

/-- An insert with a fresh index below the cap appends the (normalised)
entity. -/
theorem addIndexed_fresh_lt {α : Type} (getIdx : α → Nat) (setIdx : α → Nat → α)
    (norm : α → α) (maxN : Nat) (xs : List α) (x : α)
    (hnorm : getIdx (norm x) = getIdx x)
    (hlt : getIdx x < maxN)
    (hfresh : ∀ e ∈ xs, getIdx e ≠ getIdx x) :
    addIndexedEntity getIdx setIdx norm maxN xs x = xs ++ [norm x] := by
  unfold addIndexedEntity
  have h1 : xs.any (fun e => getIdx e == getIdx (norm x)) = false := by
    simp only [List.any_eq_false, beq_iff_eq, hnorm]; exact hfresh
  have h2 : ¬ maxN ≤ getIdx (norm x) := by rw [hnorm]; omega
  simp [h1, h2]

/-- An insert with a fresh non-sentinel index at or above the cap is
rejected. -/
theorem addIndexed_fresh_ge {α : Type} (getIdx : α → Nat) (setIdx : α → Nat → α)
    (norm : α → α) (maxN : Nat) (xs : List α) (x : α)
    (hnorm : getIdx (norm x) = getIdx x)
    (hge : maxN ≤ getIdx x) (hne : getIdx x ≠ 65535)
    (hfresh : ∀ e ∈ xs, getIdx e ≠ getIdx x) :
    addIndexedEntity getIdx setIdx norm maxN xs x = xs := by
  unfold addIndexedEntity
  have h1 : xs.any (fun e => getIdx e == getIdx (norm x)) = false := by
    simp only [List.any_eq_false, beq_iff_eq, hnorm]; exact hfresh
  have h2 : maxN ≤ getIdx (norm x) := by rw [hnorm]; exact hge
  have h3 : ¬ getIdx (norm x) = 65535 := by rw [hnorm]; exact hne
  simp [h1, h2, h3]

/-- A sentinel-indexed insert below the cap appends the entity with index
`length` — whether or not that value is already a stored index. -/
theorem addIndexed_sentinel_append {α : Type} (getIdx : α → Nat)
    (setIdx : α → Nat → α) (norm : α → α) (maxN : Nat) (xs : List α) (x : α)
    (hnorm : getIdx (norm x) = getIdx x)
    (hx : getIdx x = 65535) (hmax : maxN ≤ 65535)
    (hfresh : ∀ e ∈ xs, getIdx e ≠ 65535)
    (hlen : xs.length < maxN) :
    addIndexedEntity getIdx setIdx norm maxN xs x =
      xs ++ [setIdx (norm x) xs.length] := by
  unfold addIndexedEntity
  have h1 : xs.any (fun e => getIdx e == getIdx (norm x)) = false := by
    simp only [List.any_eq_false, beq_iff_eq, hnorm, hx]; exact hfresh
  have h2 : maxN ≤ getIdx (norm x) := by rw [hnorm, hx]; exact hmax
  have h3 : getIdx (norm x) = 65535 := by rw [hnorm]; exact hx
  simp [h1, h2, h3, hlen, hmax]
  exact hfresh

/-- A sentinel-indexed insert at the cap is rejected. -/
theorem addIndexed_sentinel_full {α : Type} (getIdx : α → Nat)
    (setIdx : α → Nat → α) (norm : α → α) (maxN : Nat) (xs : List α) (x : α)
    (hnorm : getIdx (norm x) = getIdx x)
    (hx : getIdx x = 65535) (hmax : maxN ≤ 65535)
    (hfresh : ∀ e ∈ xs, getIdx e ≠ 65535)
    (hlen : ¬ xs.length < maxN) :
    addIndexedEntity getIdx setIdx norm maxN xs x = xs := by
  unfold addIndexedEntity
  have h1 : xs.any (fun e => getIdx e == getIdx (norm x)) = false := by
    simp only [List.any_eq_false, beq_iff_eq, hnorm, hx]; exact hfresh
  have h2 : maxN ≤ getIdx (norm x) := by rw [hnorm, hx]; exact hmax
  have h3 : getIdx (norm x) = 65535 := by rw [hnorm]; exact hx
  simp [h1, h2, h3, hlen, hmax]

/-- A second insert carrying the same non-sentinel index as a previous one
is the identity on the collection. -/
theorem addIndexed_second {α : Type} (getIdx : α → Nat) (setIdx : α → Nat → α)
    (norm : α → α) (maxN : Nat) (xs : List α) (x y : α)
    (hnx : getIdx (norm x) = getIdx x) (hny : getIdx (norm y) = getIdx y)
    (hxy : getIdx y = getIdx x) (hs : getIdx x ≠ 65535) :
    addIndexedEntity getIdx setIdx norm maxN
      (addIndexedEntity getIdx setIdx norm maxN xs x) y =
      addIndexedEntity getIdx setIdx norm maxN xs x := by
  by_cases hmem : ∃ e ∈ xs, getIdx e = getIdx x
  · have hx : addIndexedEntity getIdx setIdx norm maxN xs x = xs :=
      addIndexed_mem _ _ _ _ xs x (by rw [hnx]; exact hmem)
    rw [hx]
    exact addIndexed_mem _ _ _ _ xs y (by rw [hny, hxy]; exact hmem)
  · have hfresh : ∀ e ∈ xs, getIdx e ≠ getIdx x := by
      intro e he hcontra; exact hmem ⟨e, he, hcontra⟩
    by_cases hlt : getIdx x < maxN
    · have hx : addIndexedEntity getIdx setIdx norm maxN xs x = xs ++ [norm x] :=
        addIndexed_fresh_lt _ _ _ _ xs x hnx hlt hfresh
      rw [hx]
      exact addIndexed_mem _ _ _ _ _ y ⟨norm x, by simp, by rw [hnx, hny, hxy]⟩
    · have hx : addIndexedEntity getIdx setIdx norm maxN xs x = xs :=
        addIndexed_fresh_ge _ _ _ _ xs x hnx (by omega) hs hfresh
      rw [hx]
      exact addIndexed_fresh_ge _ _ _ _ xs y hny (by omega) (by rw [hxy]; exact hs)
        (by intro e he; rw [hxy]; exact hfresh e he)

/-- Index distinctness is preserved by an insert unless the insert is a
sentinel insert performed when the collection size is itself a stored
index. -/
theorem addIndexed_nodup {α : Type} (getIdx : α → Nat) (setIdx : α → Nat → α)
    (norm : α → α) (maxN : Nat) (xs : List α) (x : α)
    (hnx : getIdx (norm x) = getIdx x)
    (hset : ∀ z n, getIdx (setIdx z n) = n)
    (hmax : maxN ≤ 65535)
    (hnd : (xs.map getIdx).Nodup)
    (hok : getIdx x ≠ 65535 ∨ xs.length ∉ xs.map getIdx) :
    ((addIndexedEntity getIdx setIdx norm maxN xs x).map getIdx).Nodup := by
  by_cases hmem : ∃ e ∈ xs, getIdx e = getIdx x
  · rw [addIndexed_mem _ _ _ _ xs x (by rw [hnx]; exact hmem)]; exact hnd
  · have hfresh : ∀ e ∈ xs, getIdx e ≠ getIdx x := by
      intro e he hcontra; exact hmem ⟨e, he, hcontra⟩
    by_cases hlt : getIdx x < maxN
    · rw [addIndexed_fresh_lt _ _ _ _ xs x hnx hlt hfresh]
      simp only [List.map_append, List.map_cons, List.map_nil, hnx]
      rw [List.nodup_append]
      refine ⟨hnd, List.nodup_singleton _, ?_⟩
      intro a ha
      simp only [List.mem_singleton]
      intro hb
      rw [List.mem_map] at ha
      obtain ⟨e, he, rfl⟩ := ha
      exact hfresh e he hb
    · by_cases hsent : getIdx x = 65535
      · by_cases hlen : xs.length < maxN
        · rw [addIndexed_sentinel_append _ _ _ _ xs x hnx hsent hmax
            (by intro e he; rw [← hsent]; exact hfresh e he) hlen]
          simp only [List.map_append, List.map_cons, List.map_nil, hset]
          rw [List.nodup_append]
          refine ⟨hnd, List.nodup_singleton _, ?_⟩
          intro a ha
          simp only [List.mem_singleton]
          intro hb
          rcases hok with hok | hok
          · exact hok hsent
          · rw [hb] at ha; exact hok ha
        · rw [addIndexed_sentinel_full _ _ _ _ xs x hnx hsent hmax
            (by intro e he; rw [← hsent]; exact hfresh e he) hlen]
          exact hnd
      · rw [addIndexed_fresh_ge _ _ _ _ xs x hnx (by omega) hsent hfresh]
        exact hnd

/-- With `maxN` pairwise-distinct stored indices all below the cap, every
further insert is rejected (the pigeonhole case of capacity enforcement). -/
theorem addIndexed_full_reject {α : Type} (getIdx : α → Nat)
    (setIdx : α → Nat → α) (norm : α → α) (maxN : Nat) (xs : List α) (x : α)
    (hnx : getIdx (norm x) = getIdx x)
    (hmax : maxN ≤ 65535)
    (hlen : xs.length = maxN)
    (hnd : (xs.map getIdx).Nodup)
    (hlt : ∀ i ∈ xs.map getIdx, i < maxN) :
    addIndexedEntity getIdx setIdx norm maxN xs x = xs := by
  by_cases hmem : ∃ e ∈ xs, getIdx e = getIdx x
  · exact addIndexed_mem _ _ _ _ xs x (by rw [hnx]; exact hmem)
  · have hfresh : ∀ e ∈ xs, getIdx e ≠ getIdx x := by
      intro e he hcontra; exact hmem ⟨e, he, hcontra⟩
    by_cases hltx : getIdx x < maxN
    · exfalso
      have hcard : (xs.map getIdx).toFinset.card = maxN := by
        rw [List.toFinset_card_of_nodup hnd, List.length_map, hlen]
      have hsub : (xs.map getIdx).toFinset ⊆ Finset.range maxN := by
        intro i hi
        rw [List.mem_toFinset] at hi
        exact Finset.mem_range.mpr (hlt i hi)
      have heq : (xs.map getIdx).toFinset = Finset.range maxN :=
        Finset.eq_of_subset_of_card_le hsub (by rw [hcard, Finset.card_range])
      have hmem2 : getIdx x ∈ (xs.map getIdx).toFinset := by
        rw [heq]; exact Finset.mem_range.mpr hltx
      rw [List.mem_toFinset, List.mem_map] at hmem2
      obtain ⟨e, he, hee⟩ := hmem2
      exact hfresh e he hee
    · by_cases hsent : getIdx x = 65535
      · exact addIndexed_sentinel_full _ _ _ _ xs x hnx hsent hmax
          (by intro e he h65; exact hfresh e he (h65.trans hsent.symm))
          (by omega)
      · exact addIndexed_fresh_ge _ _ _ _ xs x hnx (by omega) hsent hfresh

/-- The indices reached by an explicit insert of index 1 followed by `n`
sentinel inserts: `1, 1, 2, ..., n-1, n` — the first sentinel insert
DUPLICATES the stored index 1, and every bank state below is reachable
through the public `AddPreset` interface. -/
theorem iterAddSentinel_indices (n : Nat) (hn : n ≤ 999) :
    (iterAddSentinel n bankIdx1).m_presets.map E4Preset.m_index =
      1 :: List.range' 1 n := by
  induction n with
  | zero => decide
  | succ n ih =>
    have hn2 : n ≤ 999 := by omega
    have H := ih hn2
    have hlenp : (iterAddSentinel n bankIdx1).m_presets.length = n + 1 := by
      have := congrArg List.length H
      simpa [List.length_range'] using this
    have hfresh : ∀ e ∈ (iterAddSentinel n bankIdx1).m_presets,
        E4Preset.m_index e ≠ 65535 := by
      intro e he hcontra
      have hmem : (65535 : Nat) ∈
          (iterAddSentinel n bankIdx1).m_presets.map E4Preset.m_index := by
        rw [List.mem_map]; exact ⟨e, he, hcontra⟩
      rw [H] at hmem
      rcases List.mem_cons.mp hmem with h | h
      · omega
      · have := List.mem_range'_1.mp h; omega
    have hadd := addIndexed_sentinel_append E4Preset.m_index
      (fun p i => { p with m_index := i }) E4Preset.normalizeName 1000
      (iterAddSentinel n bankIdx1).m_presets mkSentinelPreset rfl (by decide)
      (by decide) hfresh (by omega)
    simp only [iterAddSentinel, E4BBank.AddPreset]
    rw [hadd, List.map_append, H, hlenp]
    rw [List.range'_concat]
    simp [Nat.add_comm]

/-- On any bank whose preset indices are `1, 1, 2, ..., 999` (so 1000
presets, reachable per `iterAddSentinel_indices`), an explicit insert of
index 0 is ACCEPTED: the explicit-index path of `AddPreset` never checks
the cap. -/
theorem addPreset_to_full_bank_accepted (b : E4BBank)
    (H : b.m_presets.map E4Preset.m_index = 1 :: List.range' 1 999) :
    b.m_presets.length = 1000 ∧
    (b.AddPreset (E4Preset.make (strBytes "Extra Preset") [] 0)).m_presets.length
      = 1001 := by
  have hlenp : b.m_presets.length = 1000 := by
    have := congrArg List.length H
    simpa [List.length_range'] using this
  refine ⟨hlenp, ?_⟩
  have hfresh : ∀ e ∈ b.m_presets,
      E4Preset.m_index e ≠ (E4Preset.make (strBytes "Extra Preset") [] 0).m_index := by
    intro e he hcontra
    have hmem : E4Preset.m_index e ∈ b.m_presets.map E4Preset.m_index := by
      rw [List.mem_map]; exact ⟨e, he, rfl⟩
    rw [H] at hmem
    have hz : (E4Preset.make (strBytes "Extra Preset") [] 0).m_index = 0 := by decide
    rw [hz] at hcontra
    rcases List.mem_cons.mp hmem with h | h
    · omega
    · have := List.mem_range'_1.mp h; omega
  have hadd := addIndexed_fresh_lt E4Preset.m_index
    (fun p i => { p with m_index := i }) E4Preset.normalizeName 1000
    b.m_presets (E4Preset.make (strBytes "Extra Preset") [] 0) rfl (by decide) hfresh
  simp only [E4BBank.AddPreset]
  rw [hadd]
  simp [hlenp]

/-! ## Index lemmas for the capacity witness bank -/

/-- The preset indices of `fullDistinctBank` are exactly 0..999. -/
theorem fullDistinctBank_preset_indices :
    fullDistinctBank.m_presets.map E4Preset.m_index = List.range 1000 := by
  simp only [fullDistinctBank]
  rw [List.map_map]
  have h : (E4Preset.m_index ∘ fdbPreset) = id := funext fun i => rfl
  rw [h, List.map_id]

/-- The sample indices of `fullDistinctBank` are exactly 0..999. -/
theorem fullDistinctBank_sample_indices :
    fullDistinctBank.m_samples.map E3Sample.m_index = List.range 1000 := by
  simp only [fullDistinctBank]
  rw [List.map_map]
  have h : (E3Sample.m_index ∘ fdbSample) = id := funext fun i => rfl
  rw [h, List.map_id]

/-- The sequence indices of `fullDistinctBank` are exactly 0..999. -/
theorem fullDistinctBank_sequence_indices :
    fullDistinctBank.m_sequences.map E4Sequence.m_index = List.range 1000 := by
  simp only [fullDistinctBank]
  rw [List.map_map]
  have h : (E4Sequence.m_index ∘ fdbSequence) = id := funext fun i => rfl
  rw [h, List.map_id]

/-! ## Claim theorems -/

/-- C1 (code bug).  The round-trip claim fails on the code: the bank
`c1Bank` holds two presets with indices 0 and 1 and startup preset 1, all
values in range, yet `decode(encode(bank))` yields startup preset 0.
`E4EMSt::Write` stores `m_currentPreset` without the byteswap its own
`Read` applies, so the stored 1 is read back as 256, which matches no
preset and falls back to the first decoded preset's index 0; the decoded
preset names also differ from the originals because the first preset's
table-of-contents offset is stale (see C2).  The decode itself reports
`READ_SUCCESS`. -/
theorem c1_roundtrip_startup_bug :
    c1Bank.m_presets.map E4Preset.m_index = [0, 1] ∧
    c1Bank.m_startupPreset = 1 ∧
    (ReadE4B tf0 true true (WriteE4B tf0 true c1Bank)).1 =
      EE4BReadResult.READ_SUCCESS ∧
    (ReadE4B tf0 true true (WriteE4B tf0 true c1Bank)).2.m_startupPreset = 0 ∧
    (ReadE4B tf0 true true (WriteE4B tf0 true c1Bank)).2.m_presets.map
        E4Preset.m_name ≠ c1Bank.m_presets.map E4Preset.m_name := by
  refine ⟨?_, ?_, ?_, ?_, ?_⟩ <;> decide

/-- The C1 demonstration is insensitive to the floating-point transfer
functions: the same facts hold at the second instantiation `tf255`. -/
theorem startup_byteswap_bug_other_floats :
    c1Bank.m_startupPreset = 1 ∧
    (ReadE4B tf255 true true (WriteE4B tf255 true c1Bank)).2.m_startupPreset = 0 := by
  refine ⟨?_, ?_⟩ <;> decide

/-- C2 (code bug).  For the concrete scenario bank the encoded file does
begin `FORM`,length,`E4B0`,`TOC1`,64 with two 32-byte entries tagged
`E4P1` and `E3S1`, but the preset entry's stored big-endian offset is 52
while the `E4P1` sub-block actually sits at 84: `AddTOCIndex` computes the
offset from the tree size before the SECOND table entry grows the TOC by
32 bytes (only the last entry's offset is ever correct).  Decoding then
parses the preset record out of the middle of the sample's TOC entry, so
the decoded preset name is 4 junk bytes followed by part of the sample
name instead of "Test Preset     "; the sample (whose entry is last, with
a correct offset 482) and the startup preset index 0 decode correctly. -/
theorem c2_scenario_toc_offset_bug :
    (WriteE4B tf0 true scenBank).size = 1966 ∧
    (WriteE4B tf0 true scenBank).sliceList 0 20 =
      strBytes "FORM" ++ [0, 0, 7, 166] ++ strBytes "E4B0" ++
        strBytes "TOC1" ++ [0, 0, 0, 64] ∧
    (WriteE4B tf0 true scenBank).sliceList 20 4 = strBytes "E4P1" ∧
    (WriteE4B tf0 true scenBank).sliceList 28 4 = [0, 0, 0, 52] ∧
    (WriteE4B tf0 true scenBank).sliceList 52 4 = strBytes "E3S1" ∧
    (WriteE4B tf0 true scenBank).sliceList 60 4 = [0, 0, 1, 226] ∧
    (WriteE4B tf0 true scenBank).sliceList 84 4 = strBytes "E4P1" ∧
    (WriteE4B tf0 true scenBank).sliceList 482 4 = strBytes "E3S1" ∧
    (ReadE4B tf0 true true (WriteE4B tf0 true scenBank)).1 =
      EE4BReadResult.READ_SUCCESS ∧
    (ReadE4B tf0 true true (WriteE4B tf0 true scenBank)).2.m_presets.map
        E4Preset.m_name =
      [[1, 226, 0, 0] ++ strBytes "Test Sample "] ∧
    (ReadE4B tf0 true true (WriteE4B tf0 true scenBank)).2.m_presets.map
        E4Preset.m_name ≠ [strBytes "Test Preset     "] ∧
    (ReadE4B tf0 true true (WriteE4B tf0 true scenBank)).2.m_samples.map
        E3Sample.m_sampleRate = [44100] ∧
    (ReadE4B tf0 true true (WriteE4B tf0 true scenBank)).2.m_samples.map
        E3Sample.m_sampleData = [[1, 2, 3, 4]] ∧
    (ReadE4B tf0 true true (WriteE4B tf0 true scenBank)).2.m_startupPreset = 0 := by
  refine ⟨?_, ?_, ?_, ?_, ?_, ?_, ?_, ?_, ?_, ?_, ?_, ?_, ?_, ?_⟩ <;> decide

/-- The C2 demonstration is insensitive to the floating-point transfer
functions: the structural facts hold at the second instantiation `tf255`
as well (the transfer functions only influence five voice-parameter bytes
inside the `E4P1` payload). -/
theorem scenario_toc_offset_bug_other_floats :
    (WriteE4B tf255 true scenBank).size = 1966 ∧
    (WriteE4B tf255 true scenBank).sliceList 28 4 = [0, 0, 0, 52] ∧
    (WriteE4B tf255 true scenBank).sliceList 84 4 = strBytes "E4P1" ∧
    (ReadE4B tf255 true true (WriteE4B tf255 true scenBank)).2.m_presets.map
        E4Preset.m_name = [[1, 226, 0, 0] ++ strBytes "Test Sample "] := by
  refine ⟨?_, ?_, ?_, ?_⟩ <;> decide

/-- C4 (code bug).  An existing `.e4b` file whose OUTER tag is not `FORM`
makes `ReadE4B` return `FILE_NOT_EXIST`, not `FILE_INVALID`: the `return
FILE_INVALID` sits inside the `if (form == "FORM")` block, so a wrong
outer tag falls through to the final `return FILE_NOT_EXIST`.  The other
structural arms conform to the claim: a wrong `E4B0` identifier, a wrong
`TOC1` tag, a zero-entry table and an unknown table-entry tag all yield
`FILE_INVALID`, and a missing file yields `FILE_NOT_EXIST`. -/
theorem c4_wrong_outer_tag_misreported :
    (ReadE4B tf0 true true c4File).1 = EE4BReadResult.FILE_NOT_EXIST ∧
    (ReadE4B tf0 true true c4File).1 ≠ EE4BReadResult.FILE_INVALID ∧
    (ReadE4B tf0 true false c4File).1 = EE4BReadResult.FILE_NOT_EXIST ∧
    (ReadE4B tf0 true true (Blob.ofList (strBytes "FORM" ++ [0, 0, 0, 100] ++
        strBytes "XXXX" ++ List.replicate 24 0))).1 =
      EE4BReadResult.FILE_INVALID ∧
    (ReadE4B tf0 true true (Blob.ofList (strBytes "FORM" ++ [0, 0, 0, 100] ++
        strBytes "E4B0" ++ strBytes "XXXX" ++ [0, 0, 0, 64] ++
        List.replicate 24 0))).1 = EE4BReadResult.FILE_INVALID ∧
    (ReadE4B tf0 true true (Blob.ofList (strBytes "FORM" ++ [0, 0, 0, 100] ++
        strBytes "E4B0" ++ strBytes "TOC1" ++ [0, 0, 0, 0] ++
        List.replicate 24 0))).1 = EE4BReadResult.FILE_INVALID ∧
    (ReadE4B tf0 true true (Blob.ofList (strBytes "FORM" ++ [0, 0, 0, 100] ++
        strBytes "E4B0" ++ strBytes "TOC1" ++ [0, 0, 0, 32] ++
        strBytes "XXXX" ++ List.replicate 28 0))).1 =
      EE4BReadResult.FILE_INVALID := by
  refine ⟨?_, ?_, ?_, ?_, ?_, ?_, ?_⟩ <;> decide

/-- C5 (counterexample).  Two `AddPreset` calls — an explicit index 1,
then the auto-assign sentinel — leave the bank holding TWO presets with
index 1: the duplicate scan runs before the sentinel is replaced by the
collection size, so the auto-assigned index is never re-checked against
the stored ones. -/
theorem c5_counterexample_duplicate_indices :
    c5Bank.m_presets.map E4Preset.m_index = [1, 1] ∧
    ¬ (c5Bank.m_presets.map E4Preset.m_index).Nodup := by
  refine ⟨?_, ?_⟩ <;> decide

/-- C5 (amended).  Pairwise-distinct indices are preserved by every
`AddPreset`/`AddSample`/`AddSequence` call EXCEPT a sentinel-indexed add
performed when the current collection size is itself a stored index: under
the hypothesis that the add is explicit or the size is fresh, distinctness
is preserved. -/
theorem c5_amended_index_distinctness (b : E4BBank) (p : E4Preset)
    (smp : E3Sample) (sq : E4Sequence) :
    ((b.m_presets.map E4Preset.m_index).Nodup →
      (p.m_index ≠ 65535 ∨ b.m_presets.length ∉ b.m_presets.map E4Preset.m_index) →
      ((b.AddPreset p).m_presets.map E4Preset.m_index).Nodup) ∧
    ((b.m_samples.map E3Sample.m_index).Nodup →
      (smp.m_index ≠ 65535 ∨ b.m_samples.length ∉ b.m_samples.map E3Sample.m_index) →
      ((b.AddSample smp).m_samples.map E3Sample.m_index).Nodup) ∧
    ((b.m_sequences.map E4Sequence.m_index).Nodup →
      (sq.m_index ≠ 65535 ∨
        b.m_sequences.length ∉ b.m_sequences.map E4Sequence.m_index) →
      ((b.AddSequence sq).m_sequences.map E4Sequence.m_index).Nodup) := by
  refine ⟨fun hnd hok => ?_, fun hnd hok => ?_, fun hnd hok => ?_⟩
  · simp only [E4BBank.AddPreset]
    exact addIndexed_nodup E4Preset.m_index (fun z i => { z with m_index := i })
      E4Preset.normalizeName 1000 b.m_presets p rfl (fun z n => rfl) (by omega) hnd hok
  · simp only [E4BBank.AddSample]
    exact addIndexed_nodup E3Sample.m_index (fun z i => { z with m_index := i })
      E3Sample.normalizeName 1000 b.m_samples smp rfl (fun z n => rfl) (by omega) hnd hok
  · simp only [E4BBank.AddSequence]
    exact addIndexed_nodup E4Sequence.m_index (fun z i => { z with m_index := i })
      E4Sequence.normalizeName 1000 b.m_sequences sq rfl (fun z n => rfl) (by omega)
      hnd hok

/-- Witness for the amended C5 statement at a concrete input: inserting an
explicit index 1 into the empty bank (each collection) preserves
distinctness. -/
theorem c5_amended_index_distinctness_witness :
    ((({} : E4BBank).AddPreset (E4Preset.make (strBytes "Preset A") [] 1)).m_presets.map
        E4Preset.m_index).Nodup ∧
    ((({} : E4BBank).AddSample (E3Sample.make (strBytes "Sample A") [1] 44100 1 {} 1)).m_samples.map
        E3Sample.m_index).Nodup ∧
    ((({} : E4BBank).AddSequence (E4Sequence.make (strBytes "Sequence A") [1] 1)).m_sequences.map
        E4Sequence.m_index).Nodup :=
  ⟨(c5_amended_index_distinctness {} (E4Preset.make (strBytes "Preset A") [] 1)
      (E3Sample.make (strBytes "Sample A") [1] 44100 1 {} 1)
      (E4Sequence.make (strBytes "Sequence A") [1] 1)).1
    (by decide) (Or.inl (by decide)),
   (c5_amended_index_distinctness {} (E4Preset.make (strBytes "Preset A") [] 1)
      (E3Sample.make (strBytes "Sample A") [1] 44100 1 {} 1)
      (E4Sequence.make (strBytes "Sequence A") [1] 1)).2.1
    (by decide) (Or.inl (by decide)),
   (c5_amended_index_distinctness {} (E4Preset.make (strBytes "Preset A") [] 1)
      (E3Sample.make (strBytes "Sample A") [1] 44100 1 {} 1)
      (E4Sequence.make (strBytes "Sequence A") [1] 1)).2.2
    (by decide) (Or.inl (by decide))⟩

/-- C6 (code bug).  `RemoveIfValid` checks that the index VALUE 1 is
stored, then erases the element at POSITION 1.  On the bank whose presets
sit in the order [index 1, index 0], `RemovePreset 1` therefore removes
the preset with index 0 and keeps the preset with index 1 — the opposite
of the claim.  Removing a non-stored index (7) leaves the bank unchanged
(the reported-error half of the claim). -/
theorem c6_remove_by_index_bug :
    c6Bank.m_presets.map E4Preset.m_index = [1, 0] ∧
    (c6Bank.RemovePreset 1).m_presets.map E4Preset.m_index = [1] ∧
    (c6Bank.RemovePreset 1).m_presets.map E4Preset.m_index ≠ [0] ∧
    c6Bank.RemovePreset 7 = c6Bank := by
  refine ⟨?_, ?_, ?_, ?_⟩ <;> decide

/-- C7 (counterexample).  A bank holding 1000 presets — reached through
1000 accepted `AddPreset` calls (explicit index 1, then 999 sentinel
inserts, whose indices are `1, 1, 2, ..., 999` per
`iterAddSentinel_indices`) — ACCEPTS a 1001st insert with explicit index
0: the explicit-index path of the add never consults the 1000 cap. -/
theorem c7_counterexample_cap_exceeded :
    (iterAddSentinel 999 bankIdx1).m_presets.length = 1000 ∧
    ((iterAddSentinel 999 bankIdx1).AddPreset
        (E4Preset.make (strBytes "Extra Preset") [] 0)).m_presets.length = 1001 :=
  addPreset_to_full_bank_accepted _ (iterAddSentinel_indices 999 (by omega))

/-- C7 (amended).  Capacity is enforced at 1000 under the additional
hypothesis that the 1000 stored indices are pairwise distinct (and below
1000, as every accepted insert keeps them): then any further insert into
that collection is rejected and the bank is unchanged. -/
theorem c7_amended_capacity_enforcement (b : E4BBank) (p : E4Preset)
    (smp : E3Sample) (sq : E4Sequence) :
    (b.m_presets.length = 1000 → (b.m_presets.map E4Preset.m_index).Nodup →
      (∀ i ∈ b.m_presets.map E4Preset.m_index, i < 1000) →
      b.AddPreset p = b) ∧
    (b.m_samples.length = 1000 → (b.m_samples.map E3Sample.m_index).Nodup →
      (∀ i ∈ b.m_samples.map E3Sample.m_index, i < 1000) →
      b.AddSample smp = b) ∧
    (b.m_sequences.length = 1000 → (b.m_sequences.map E4Sequence.m_index).Nodup →
      (∀ i ∈ b.m_sequences.map E4Sequence.m_index, i < 1000) →
      b.AddSequence sq = b) := by
  refine ⟨fun hlen hnd hlt => ?_, fun hlen hnd hlt => ?_, fun hlen hnd hlt => ?_⟩
  · simp only [E4BBank.AddPreset]
    rw [addIndexed_full_reject E4Preset.m_index (fun z i => { z with m_index := i })
      E4Preset.normalizeName 1000 b.m_presets p rfl (by omega) hlen hnd hlt]
  · simp only [E4BBank.AddSample]
    rw [addIndexed_full_reject E3Sample.m_index (fun z i => { z with m_index := i })
      E3Sample.normalizeName 1000 b.m_samples smp rfl (by omega) hlen hnd hlt]
  · simp only [E4BBank.AddSequence]
    rw [addIndexed_full_reject E4Sequence.m_index (fun z i => { z with m_index := i })
      E4Sequence.normalizeName 1000 b.m_sequences sq rfl (by omega) hlen hnd hlt]

/-- Witness for the amended C7 statement: on the bank whose collections
each hold entities with distinct indices 0..999, a further insert into
each collection leaves the bank unchanged. -/
theorem c7_amended_capacity_enforcement_witness :
    fullDistinctBank.AddPreset (E4Preset.make (strBytes "Extra Preset") [] 500) =
      fullDistinctBank ∧
    fullDistinctBank.AddSample
        (E3Sample.make (strBytes "Extra Sample") [1] 44100 1 {} 500) =
      fullDistinctBank ∧
    fullDistinctBank.AddSequence (E4Sequence.make (strBytes "Extra Sequence") [1] 500) =
      fullDistinctBank :=
  ⟨(c7_amended_capacity_enforcement fullDistinctBank
      (E4Preset.make (strBytes "Extra Preset") [] 500)
      (E3Sample.make (strBytes "Extra Sample") [1] 44100 1 {} 500)
      (E4Sequence.make (strBytes "Extra Sequence") [1] 500)).1
    (by rw [← List.length_map fullDistinctBank.m_presets E4Preset.m_index,
          fullDistinctBank_preset_indices]; rfl)
    (by rw [fullDistinctBank_preset_indices]; exact List.nodup_range 1000)
    (by rw [fullDistinctBank_preset_indices]; intro i hi; exact List.mem_range.mp hi),
   (c7_amended_capacity_enforcement fullDistinctBank
      (E4Preset.make (strBytes "Extra Preset") [] 500)
      (E3Sample.make (strBytes "Extra Sample") [1] 44100 1 {} 500)
      (E4Sequence.make (strBytes "Extra Sequence") [1] 500)).2.1
    (by rw [← List.length_map fullDistinctBank.m_samples E3Sample.m_index,
          fullDistinctBank_sample_indices]; rfl)
    (by rw [fullDistinctBank_sample_indices]; exact List.nodup_range 1000)
    (by rw [fullDistinctBank_sample_indices]; intro i hi; exact List.mem_range.mp hi),
   (c7_amended_capacity_enforcement fullDistinctBank
      (E4Preset.make (strBytes "Extra Preset") [] 500)
      (E3Sample.make (strBytes "Extra Sample") [1] 44100 1 {} 500)
      (E4Sequence.make (strBytes "Extra Sequence") [1] 500)).2.2
    (by rw [← List.length_map fullDistinctBank.m_sequences E4Sequence.m_index,
          fullDistinctBank_sequence_indices]; rfl)
    (by rw [fullDistinctBank_sequence_indices]; exact List.nodup_range 1000)
    (by rw [fullDistinctBank_sequence_indices]; intro i hi; exact List.mem_range.mp hi)⟩

/-- C8 (confirmed).  Inserting two presets (samples, sequences) carrying
the same explicit (non-sentinel) index leaves the bank as after the first
insert alone: the second insert is rejected without modifying the stored
collection; and when the shared index is valid (below 1000) and the bank
started empty, the collection holds exactly the first entity. -/
theorem c8_duplicate_insert_keeps_first (b : E4BBank) (p q : E4Preset)
    (s t : E3Sample) (u w : E4Sequence) :
    (q.m_index = p.m_index → p.m_index ≠ 65535 →
      ((b.AddPreset p).AddPreset q = b.AddPreset p ∧
       (p.m_index < 1000 →
         ((({} : E4BBank).AddPreset p).AddPreset q).m_presets =
           [p.normalizeName]))) ∧
    (t.m_index = s.m_index → s.m_index ≠ 65535 →
      ((b.AddSample s).AddSample t = b.AddSample s ∧
       (s.m_index < 1000 →
         ((({} : E4BBank).AddSample s).AddSample t).m_samples =
           [s.normalizeName]))) ∧
    (w.m_index = u.m_index → u.m_index ≠ 65535 →
      ((b.AddSequence u).AddSequence w = b.AddSequence u ∧
       (u.m_index < 1000 →
         ((({} : E4BBank).AddSequence u).AddSequence w).m_sequences =
           [u.normalizeName]))) := by
  refine ⟨fun hpq hs => ⟨?_, fun hlt => ?_⟩, fun hpq hs => ⟨?_, fun hlt => ?_⟩,
    fun hpq hs => ⟨?_, fun hlt => ?_⟩⟩
  · simp only [E4BBank.AddPreset]
    rw [addIndexed_second E4Preset.m_index (fun z i => { z with m_index := i })
      E4Preset.normalizeName 1000 b.m_presets p q rfl rfl hpq hs]
  · have h1 : (({} : E4BBank).AddPreset p).m_presets = [p.normalizeName] := by
      simp only [E4BBank.AddPreset]
      rw [addIndexed_fresh_lt E4Preset.m_index (fun z i => { z with m_index := i })
        E4Preset.normalizeName 1000 [] p rfl hlt (by intro e he; cases he)]
      rfl
    simp only [E4BBank.AddPreset] at h1 ⊢
    rw [h1, addIndexed_mem E4Preset.m_index (fun z i => { z with m_index := i })
      E4Preset.normalizeName 1000 [p.normalizeName] q
      ⟨p.normalizeName, by simp, by show p.m_index = q.m_index; omega⟩]
  · simp only [E4BBank.AddSample]
    rw [addIndexed_second E3Sample.m_index (fun z i => { z with m_index := i })
      E3Sample.normalizeName 1000 b.m_samples s t rfl rfl hpq hs]
  · have h1 : (({} : E4BBank).AddSample s).m_samples = [s.normalizeName] := by
      simp only [E4BBank.AddSample]
      rw [addIndexed_fresh_lt E3Sample.m_index (fun z i => { z with m_index := i })
        E3Sample.normalizeName 1000 [] s rfl hlt (by intro e he; cases he)]
      rfl
    simp only [E4BBank.AddSample] at h1 ⊢
    rw [h1, addIndexed_mem E3Sample.m_index (fun z i => { z with m_index := i })
      E3Sample.normalizeName 1000 [s.normalizeName] t
      ⟨s.normalizeName, by simp, by show s.m_index = t.m_index; omega⟩]
  · simp only [E4BBank.AddSequence]
    rw [addIndexed_second E4Sequence.m_index (fun z i => { z with m_index := i })
      E4Sequence.normalizeName 1000 b.m_sequences u w rfl rfl hpq hs]
  · have h1 : (({} : E4BBank).AddSequence u).m_sequences = [u.normalizeName] := by
      simp only [E4BBank.AddSequence]
      rw [addIndexed_fresh_lt E4Sequence.m_index (fun z i => { z with m_index := i })
        E4Sequence.normalizeName 1000 [] u rfl hlt (by intro e he; cases he)]
      rfl
    simp only [E4BBank.AddSequence] at h1 ⊢
    rw [h1, addIndexed_mem E4Sequence.m_index (fun z i => { z with m_index := i })
      E4Sequence.normalizeName 1000 [u.normalizeName] w
      ⟨u.normalizeName, by simp, by show u.m_index = w.m_index; omega⟩]

/-- Witness for C8 at a concrete input: two index-5 presets (samples,
sequences) inserted into the empty bank leave exactly the first. -/
theorem c8_duplicate_insert_keeps_first_witness :
    ((({} : E4BBank).AddPreset (E4Preset.make (strBytes "Preset A") [] 5)).AddPreset
        (E4Preset.make (strBytes "Preset B") [] 5)).m_presets =
      [(E4Preset.make (strBytes "Preset A") [] 5).normalizeName] ∧
    ((({} : E4BBank).AddSample
        (E3Sample.make (strBytes "Sample A") [1] 44100 1 {} 5)).AddSample
        (E3Sample.make (strBytes "Sample B") [2] 44100 1 {} 5)).m_samples =
      [(E3Sample.make (strBytes "Sample A") [1] 44100 1 {} 5).normalizeName] ∧
    ((({} : E4BBank).AddSequence
        (E4Sequence.make (strBytes "Sequence A") [1] 5)).AddSequence
        (E4Sequence.make (strBytes "Sequence B") [2] 5)).m_sequences =
      [(E4Sequence.make (strBytes "Sequence A") [1] 5).normalizeName] :=
  ⟨((c8_duplicate_insert_keeps_first {} (E4Preset.make (strBytes "Preset A") [] 5)
      (E4Preset.make (strBytes "Preset B") [] 5)
      (E3Sample.make (strBytes "Sample A") [1] 44100 1 {} 5)
      (E3Sample.make (strBytes "Sample B") [2] 44100 1 {} 5)
      (E4Sequence.make (strBytes "Sequence A") [1] 5)
      (E4Sequence.make (strBytes "Sequence B") [2] 5)).1
    (by decide) (by decide)).2 (by decide),
   ((c8_duplicate_insert_keeps_first {} (E4Preset.make (strBytes "Preset A") [] 5)
      (E4Preset.make (strBytes "Preset B") [] 5)
      (E3Sample.make (strBytes "Sample A") [1] 44100 1 {} 5)
      (E3Sample.make (strBytes "Sample B") [2] 44100 1 {} 5)
      (E4Sequence.make (strBytes "Sequence A") [1] 5)
      (E4Sequence.make (strBytes "Sequence B") [2] 5)).2.1
    (by decide) (by decide)).2 (by decide),
   ((c8_duplicate_insert_keeps_first {} (E4Preset.make (strBytes "Preset A") [] 5)
      (E4Preset.make (strBytes "Preset B") [] 5)
      (E3Sample.make (strBytes "Sample A") [1] 44100 1 {} 5)
      (E3Sample.make (strBytes "Sample B") [2] 44100 1 {} 5)
      (E4Sequence.make (strBytes "Sequence A") [1] 5)
      (E4Sequence.make (strBytes "Sequence B") [2] 5)).2.2
    (by decide) (by decide)).2 (by decide)⟩

/-- C9 (confirmed).  On a bank with at least one preset:
`SetStartupPreset 0xFFFF` always stores the "none" sentinel;
`SetStartupPreset i` with a stored index i stores i; and with an index
matching no stored preset it falls back to the first stored preset's
index. -/
theorem c9_startup_preset_rules (b : E4BBank) (p0 : E4Preset)
    (rest : List E4Preset) (h : b.m_presets = p0 :: rest) (i : Nat) :
    ((b.SetStartupPreset 65535).m_startupPreset = 65535) ∧
    ((b.GetPreset i).isSome → (b.SetStartupPreset i).m_startupPreset = i) ∧
    (i ≠ 65535 → b.GetPreset i = none →
      (b.SetStartupPreset i).m_startupPreset = p0.m_index) := by
  refine ⟨?_, ?_, ?_⟩
  · simp [E4BBank.SetStartupPreset, h]
  · intro hs
    by_cases hi : i = 65535
    · simp [E4BBank.SetStartupPreset, h, hi]
    · cases heq : b.GetPreset i with
      | none => rw [heq] at hs; simp at hs
      | some p => simp [E4BBank.SetStartupPreset, h, hi, heq]
  · intro hne hnone
    simp [E4BBank.SetStartupPreset, h, hne, hnone]

/-- Witness for C9 on the one-preset bank with index 3: the sentinel is
stored, a stored index is stored, and a missing index (7) falls back to
the first preset's index 3. -/
theorem c9_startup_preset_rules_witness :
    ((c9Bank.SetStartupPreset 65535).m_startupPreset = 65535) ∧
    ((c9Bank.SetStartupPreset 3).m_startupPreset = 3) ∧
    ((c9Bank.SetStartupPreset 7).m_startupPreset = 3) :=
  ⟨(c9_startup_preset_rules c9Bank c9Preset [] (by decide) 65535).1,
   (c9_startup_preset_rules c9Bank c9Preset [] (by decide) 3).2.1 (by decide),
   ((c9_startup_preset_rules c9Bank c9Preset [] (by decide) 7).2.2 (by decide)
      (by decide)).trans (by decide)⟩

/-- C10 (confirmed).  `E4Voice::Read` checks `voiceDataSize % 22 == 20`
(on the byteswapped stored size) and a nonzero zone count; on either
violation it returns with the voice exactly as it was — no zones read, no
field past the two checked values modified — having consumed only the
two (respectively three) checked bytes. -/
theorem c10_voice_read_preconditions (tf : FloatOps) (v : E4Voice)
    (s : ByteStream) :
    (byteswap_uint16 ((s.rdU16).1) % 22 ≠ 20 →
      E4Voice.readVoice tf v s = (v, s.skip 2)) ∧
    (byteswap_uint16 ((s.rdU16).1) % 22 = 20 → ((s.rdU16).2.rdU8).1 = 0 →
      E4Voice.readVoice tf v s = (v, s.skip 3)) := by
  constructor
  · intro h
    unfold E4Voice.readVoice
    rw [if_pos h]
    rfl
  · intro h1 h2
    unfold E4Voice.readVoice
    rw [if_neg (by simpa using h1), if_pos h2]
    simp [ByteStream.rdU16, ByteStream.rdU8, ByteStream.skip, Nat.add_assoc]

/-- Witness for C10: a stream whose stored size decodes to 1 (1 % 22 ≠ 20)
aborts after 2 bytes; one whose size decodes to 20 but whose zone count is
0 aborts after 3 bytes; the default-constructed voice is returned
unchanged in both cases. -/
theorem c10_voice_read_preconditions_witness :
    E4Voice.readVoice tf0 {} c10BadSizeStream = ({}, c10BadSizeStream.skip 2) ∧
    E4Voice.readVoice tf0 {} c10ZeroZonesStream = ({}, c10ZeroZonesStream.skip 3) :=
  ⟨(c10_voice_read_preconditions tf0 {} c10BadSizeStream).1 (by decide),
   (c10_voice_read_preconditions tf0 {} c10ZeroZonesStream).2 (by decide) (by decide)⟩

/-! ## Exact-model checks of the linear unit conversions

The three conversion pairs implemented with plain linear arithmetic and
rounding (fine tune, percent, chorus width) DO reproduce every byte of
their documented input ranges under the exact-fraction model of this file;
the filter-frequency and LFO pairs go through `std::exp`/`std::log`/
`std::pow` on IEEE doubles and are outside the reach of this embedding. -/

/-- Fine tune: `ConvertFineTuneToByte (ConvertByteToFineTune b) = b` for
every byte b in the documented range [-64, 64]. -/
theorem unit_fine_tune_roundtrip_exact :
    ((List.range 129).all fun k =>
      int8ToByte (ConvertFineTuneToByte (ConvertByteToFineTune ((k : Int) - 64))) ==
        int8ToByte ((k : Int) - 64)) = true := by decide

/-- Percent: `ConvertPercentToByteF (ConvertByteToPercentF b) = b` for
every byte b in [0, 127] and every `int8_t` b in [-127, 127]. -/
theorem unit_percent_roundtrip_exact :
    ((List.range 255).all fun k =>
      int8ToByte (ConvertPercentToByteF (ConvertByteToPercentF ((k : Int) - 127))) ==
        int8ToByte ((k : Int) - 127)) = true := by decide

/-- Chorus width: `ConvertChorusWidthToByte (GetChorusWidthPercent b) = b`
for every byte b in the documented range (the `int8_t` values [-128, 0],
i.e. bytes 128..255 and 0). -/
theorem unit_chorus_width_roundtrip_exact :
    (((List.range 128).all fun k =>
      ConvertChorusWidthToByte (GetChorusWidthPercent (k + 128)) == k + 128) &&
      (ConvertChorusWidthToByte (GetChorusWidthPercent 0) == 0)) = true := by decide

end SimpleE4B
